import Mathlib

/-!
A verification development for the transcode planning and execution core of
the kamaitachi video transcoder.  The Rust sources are shallowly embedded:
pure argument-building and classification functions become Lean functions on
lists and strings, `u8`/`u32`/`u64` fields become natural numbers (with the
wrap-around of release-mode Rust made explicit where an overflow can occur),
`f32`/`f64` progress arithmetic is modelled over the rationals (it only uses
field operations, `min`, `max` and truncating casts), and the size estimator,
which uses `powf` and `sqrt`, is modelled over the reals.
-/

namespace Kamaitachi

/-! ## String helpers

Rust string primitives (`contains`, `lines`, `split_whitespace`,
`to_lowercase`, `trim_matches`, `Vec::join`) are modelled by structurally
recursive functions over the character list of a `String`, so that every
definition evaluates inside the kernel.
-/

/-- Is `p` a (contiguous) prefix of `l`? Models the inner step of
Rust `str::contains`. -/
def listIsPre (p l : List Char) : Bool :=
  match p, l with
  | [], _ => true
  | _ :: _, [] => false
  | a :: ps, b :: ls => a == b && listIsPre ps ls

/-- Does `l` contain `p` as a contiguous sublist?  Models Rust
`str::contains` on character lists. -/
def hasSub (p : List Char) : List Char → Bool
  | [] => listIsPre p []
  | c :: rest => listIsPre p (c :: rest) || hasSub p rest

/-- Rust `haystack.contains(needle)` on strings. -/
def containsStr (s pat : String) : Bool :=
  hasSub pat.data s.data

/-- ASCII lowercasing of a string; models Rust `str::to_lowercase`
(the patterns matched by the error classifier are pure ASCII, so the
Unicode cases of the Rust function are irrelevant here). -/
def lowerStr (s : String) : String :=
  ⟨s.data.map Char.toLower⟩

/-- Split a character list at every occurrence of `sep`; the separators are
dropped.  Always returns a non-empty list of (possibly empty) chunks. -/
def splitOnChar (sep : Char) : List Char → List (List Char)
  | [] => [[]]
  | c :: rest =>
    let r := splitOnChar sep rest
    if c == sep then [] :: r
    else
      match r with
      | [] => [[c]]
      | h :: t => (c :: h) :: t

/-- Intercalate a character between chunks; inverse of `splitOnChar`.
Models Rust `Vec::join` for a one-character separator. -/
def joinChar (sep : Char) : List (List Char) → List Char
  | [] => []
  | [a] => a
  | a :: b :: rest => a ++ sep :: joinChar sep (b :: rest)

/-- Rust `Vec<String>::join(":")`, used for `-x265-params`. -/
def joinColon (l : List String) : String :=
  ⟨joinChar ':' (l.map String.data)⟩

/-- `'-'` never occurs in the digits produced by `Nat.digitChar`. -/
theorem digitChar_ne_dash (n : Nat) : Nat.digitChar n ≠ '-' := by
  by_cases h : n < 16
  · interval_cases n <;> decide
  · unfold Nat.digitChar
    repeat rw [if_neg (by omega)]
    decide

/-- Every character produced by `Nat.toDigitsCore` is a digit character or
comes from the accumulator. -/
theorem toDigitsCore_no_dash (b : Nat) :
    ∀ (f n : Nat) (ds : List Char), '-' ∉ ds → '-' ∉ Nat.toDigitsCore b f n ds := by
  intro f
  induction f with
  | zero => intro n ds h; simpa [Nat.toDigitsCore] using h
  | succ f ih =>
    intro n ds h
    unfold Nat.toDigitsCore
    dsimp only
    have hd : '-' ∉ Nat.digitChar (n % b) :: ds := by
      intro hm
      rcases List.mem_cons.mp hm with hm | hm
      · exact digitChar_ne_dash (n % b) hm.symm
      · exact h hm
    split
    · exact hd
    · exact ih _ _ hd

/-- The decimal representation of a natural number contains no dash. -/
theorem repr_no_dash (n : Nat) : '-' ∉ (Nat.repr n).data := by
  have : (Nat.repr n).data = Nat.toDigits 10 n := rfl
  rw [this]
  exact toDigitsCore_no_dash 10 (n + 1) n [] (by simp)

/-- Appending strings concatenates their character lists. -/
theorem data_append (s t : String) : (s ++ t).data = s.data ++ t.data := rfl

/-- A string containing no dash differs from any string that contains one. -/
theorem ne_of_no_dash {s t : String} (hs : '-' ∉ s.data) (ht : '-' ∈ t.data) :
    s ≠ t := by
  intro e
  rw [e] at hs
  exact hs ht

/-- A string whose character list starts with a non-dash character differs
from any string whose character list starts with a dash. -/
theorem ne_of_head_ne_dash {s t : String} {c : Char} {tl : List Char}
    (hs : s.data = c :: tl) (hc : c ≠ '-') (ht : t.data.head? = some '-') :
    s ≠ t := by
  intro e
  rw [← e, hs] at ht
  simp at ht
  exact hc ht

/-! ## Data model (src/transcoder/preset.rs, src/transcoder/hwaccel.rs)

The enums and the `TranscodeSettings` struct are translated field by field.
`u8`/`u32` fields are modelled by `Nat`; where the Rust code can overflow,
the definitions below make the release-mode wrap-around explicit.
-/

/-- Hardware acceleration type (hwaccel.rs `HwAccelType`). -/
inductive HwAccelType where
  | Auto | Nvenc | Qsv | Amf | Software
deriving DecidableEq, Repr

/-- Container format (preset.rs `ContainerFormat`). -/
inductive ContainerFormat where
  | Mp4 | Mkv
deriving DecidableEq, Repr

/-- Video codec (preset.rs `VideoCodec`). -/
inductive VideoCodec where
  | H264 | H265 | Vp9 | Av1
deriving DecidableEq, Repr

/-- Video resolution (preset.rs `VideoResolution`); `Custom w h` carries
`u32` dimensions. -/
inductive VideoResolution where
  | Original | Uhd4K | Fhd1080 | Hd720 | Sd480
  | Custom (w h : Nat)
deriving DecidableEq, Repr

/-- Encoding preset (preset.rs `VideoPreset`). -/
inductive VideoPreset where
  | Ultrafast | Fast | Medium | Slow | Veryslow
deriving DecidableEq, Repr

/-- Audio codec (preset.rs `AudioCodec`). -/
inductive AudioCodec where
  | Aac | Mp3 | Flac | Copy
deriving DecidableEq, Repr

/-- Rate control mode (preset.rs `RateControlMode`). -/
inductive RateControlMode where
  | Crf | Cbr | Vbr | Cqp
deriving DecidableEq, Repr

/-- Adaptive quantization mode (preset.rs `AqMode`). -/
inductive AqMode where
  | None | Variance | AutoVariance | AutoVarianceBiased
deriving DecidableEq, Repr

/-- NVENC tuning (preset.rs `NvencTune`). -/
inductive NvencTune where
  | HighQuality | LowLatency | UltraLowLatency | Lossless
deriving DecidableEq, Repr

/-- NVENC multipass (preset.rs `NvencMultipass`). -/
inductive NvencMultipass where
  | Disabled | Qres | Fullres
deriving DecidableEq, Repr

/-- NVENC B-reference mode (preset.rs `NvencBRefMode`). -/
inductive NvencBRefMode where
  | Disabled | Each | Middle
deriving DecidableEq, Repr

/-- AMF usage (preset.rs `AmfUsage`). -/
inductive AmfUsage where
  | Transcoding | UltraLowLatency | LowLatency | Webcam
deriving DecidableEq, Repr

/-- AMF quality (preset.rs `AmfQuality`). -/
inductive AmfQuality where
  | Speed | Balanced | Quality
deriving DecidableEq, Repr

/-- x264 tuning (preset.rs `X264Tune`). -/
inductive X264Tune where
  | None | Film | Animation | Grain | StillImage | Psnr | Ssim
  | FastDecode | ZeroLatency
deriving DecidableEq, Repr

/-- x264 profile (preset.rs `X264Profile`). -/
inductive X264Profile where
  | Baseline | Main | High | High10 | High444
deriving DecidableEq, Repr

/-- Transcode settings (preset.rs `TranscodeSettings`).  Field names follow
the Rust struct; `crf`, `bframes`, `ref_frames`, `lookahead`, `aq_strength`,
`qsv_la_depth` and the tile counts are `u8`, the bitrates and `gop_size`
are `u32`, all modelled as `Nat`. -/
structure TranscodeSettings where
  container : ContainerFormat
  video_codec : VideoCodec
  resolution : VideoResolution
  crf : Nat
  preset : VideoPreset
  hwaccel : HwAccelType
  audio_codec : AudioCodec
  audio_bitrate : Nat
  output_dir : Option String
  output_suffix : String
  rate_control : RateControlMode
  target_bitrate : Nat
  max_bitrate : Nat
  bframes : Nat
  ref_frames : Nat
  gop_size : Nat
  lookahead : Nat
  aq_mode : AqMode
  aq_strength : Nat
  nvenc_tune : NvencTune
  nvenc_multipass : NvencMultipass
  nvenc_b_ref_mode : NvencBRefMode
  qsv_la_depth : Nat
  qsv_adaptive_i : Bool
  qsv_adaptive_b : Bool
  amf_usage : AmfUsage
  amf_quality : AmfQuality
  x264_tune : X264Tune
  x264_profile : X264Profile
  vp9_tile_columns : Nat
  vp9_tile_rows : Nat
  vp9_frame_parallel : Bool
  vp9_auto_alt_ref : Bool
  vp9_lag_in_frames : Nat
  svtav1_film_grain : Nat
  svtav1_film_grain_denoise : Bool
  av1_tile_columns : Nat
  av1_tile_rows : Nat
deriving DecidableEq, Repr

/-- `Default for TranscodeSettings` (preset.rs lines 102-158). -/
def defaultSettings : TranscodeSettings where
  container := ContainerFormat.Mp4
  video_codec := VideoCodec.H264
  resolution := VideoResolution.Original
  crf := 23
  preset := VideoPreset.Medium
  hwaccel := HwAccelType.Auto
  audio_codec := AudioCodec.Aac
  audio_bitrate := 192
  output_dir := Option.none
  output_suffix := "_transcoded"
  rate_control := RateControlMode.Crf
  target_bitrate := 5000
  max_bitrate := 10000
  bframes := 3
  ref_frames := 4
  gop_size := 250
  lookahead := 20
  aq_mode := AqMode.Variance
  aq_strength := 8
  nvenc_tune := NvencTune.HighQuality
  nvenc_multipass := NvencMultipass.Qres
  nvenc_b_ref_mode := NvencBRefMode.Each
  qsv_la_depth := 40
  qsv_adaptive_i := true
  qsv_adaptive_b := true
  amf_usage := AmfUsage.Transcoding
  amf_quality := AmfQuality.Balanced
  x264_tune := X264Tune.None
  x264_profile := X264Profile.High
  vp9_tile_columns := 2
  vp9_tile_rows := 1
  vp9_frame_parallel := true
  vp9_auto_alt_ref := true
  vp9_lag_in_frames := 25
  svtav1_film_grain := 0
  svtav1_film_grain_denoise := false
  av1_tile_columns := 2
  av1_tile_rows := 2

/-- `ContainerFormat::extension` (preset.rs lines 630-635). -/
def ContainerFormat.extension : ContainerFormat → String
  | ContainerFormat.Mp4 => "mp4"
  | ContainerFormat.Mkv => "mkv"

/-- `AqMode::ffmpeg_value` (preset.rs lines 227-234), a `u8`. -/
def AqMode.ffmpegValue : AqMode → Nat
  | AqMode.None => 0
  | AqMode.Variance => 1
  | AqMode.AutoVariance => 2
  | AqMode.AutoVarianceBiased => 3

/-- `NvencTune::ffmpeg_value` (preset.rs lines 278-285). -/
def NvencTune.ffmpegValue : NvencTune → String
  | NvencTune.HighQuality => "hq"
  | NvencTune.LowLatency => "ll"
  | NvencTune.UltraLowLatency => "ull"
  | NvencTune.Lossless => "lossless"

/-- `NvencMultipass::ffmpeg_value` (preset.rs lines 326-332). -/
def NvencMultipass.ffmpegValue : NvencMultipass → String
  | NvencMultipass.Disabled => "disabled"
  | NvencMultipass.Qres => "qres"
  | NvencMultipass.Fullres => "fullres"

/-- `NvencBRefMode::ffmpeg_value` (preset.rs lines 372-378). -/
def NvencBRefMode.ffmpegValue : NvencBRefMode → String
  | NvencBRefMode.Disabled => "disabled"
  | NvencBRefMode.Each => "each"
  | NvencBRefMode.Middle => "middle"

/-- `AmfUsage::ffmpeg_value` (preset.rs lines 421-428). -/
def AmfUsage.ffmpegValue : AmfUsage → String
  | AmfUsage.Transcoding => "transcoding"
  | AmfUsage.UltraLowLatency => "ultralowlatency"
  | AmfUsage.LowLatency => "lowlatency"
  | AmfUsage.Webcam => "webcam"

/-- `AmfQuality::ffmpeg_value` (preset.rs lines 469-475). -/
def AmfQuality.ffmpegValue : AmfQuality → String
  | AmfQuality.Speed => "speed"
  | AmfQuality.Balanced => "balanced"
  | AmfQuality.Quality => "quality"

/-- `X264Tune::ffmpeg_value` (preset.rs lines 529-541). -/
def X264Tune.ffmpegValue : X264Tune → Option String
  | X264Tune.None => Option.none
  | X264Tune.Film => some "film"
  | X264Tune.Animation => some "animation"
  | X264Tune.Grain => some "grain"
  | X264Tune.StillImage => some "stillimage"
  | X264Tune.Psnr => some "psnr"
  | X264Tune.Ssim => some "ssim"
  | X264Tune.FastDecode => some "fastdecode"
  | X264Tune.ZeroLatency => some "zerolatency"

/-- `X264Profile::ffmpeg_value` (preset.rs lines 593-600). -/
def X264Profile.ffmpegValue : X264Profile → String
  | X264Profile.Baseline => "baseline"
  | X264Profile.Main => "main"
  | X264Profile.High => "high"
  | X264Profile.High10 => "high10"
  | X264Profile.High444 => "high444"

/-- `VideoPreset::ffmpeg_name` (preset.rs lines 788-795). -/
def VideoPreset.ffmpegName : VideoPreset → String
  | VideoPreset.Ultrafast => "ultrafast"
  | VideoPreset.Fast => "fast"
  | VideoPreset.Medium => "medium"
  | VideoPreset.Slow => "slow"
  | VideoPreset.Veryslow => "veryslow"

/-- `VideoResolution::dimensions` (preset.rs lines 742-751). -/
def VideoResolution.dimensions : VideoResolution → Nat × Nat
  | VideoResolution.Original => (0, 0)
  | VideoResolution.Uhd4K => (3840, 2160)
  | VideoResolution.Fhd1080 => (1920, 1080)
  | VideoResolution.Hd720 => (1280, 720)
  | VideoResolution.Sd480 => (854, 480)
  | VideoResolution.Custom w h => (w, h)

/-- `VideoCodec::encoder_name` (preset.rs lines 672-698). -/
def VideoCodec.encoderName : VideoCodec → HwAccelType → String
  | VideoCodec.H264, HwAccelType.Nvenc => "h264_nvenc"
  | VideoCodec.H265, HwAccelType.Nvenc => "hevc_nvenc"
  | VideoCodec.Av1, HwAccelType.Nvenc => "av1_nvenc"
  | VideoCodec.Vp9, HwAccelType.Nvenc => "libvpx-vp9"
  | VideoCodec.H264, HwAccelType.Qsv => "h264_qsv"
  | VideoCodec.H265, HwAccelType.Qsv => "hevc_qsv"
  | VideoCodec.Av1, HwAccelType.Qsv => "av1_qsv"
  | VideoCodec.Vp9, HwAccelType.Qsv => "vp9_qsv"
  | VideoCodec.H264, HwAccelType.Amf => "h264_amf"
  | VideoCodec.H265, HwAccelType.Amf => "hevc_amf"
  | VideoCodec.Av1, HwAccelType.Amf => "av1_amf"
  | VideoCodec.Vp9, HwAccelType.Amf => "libvpx-vp9"
  | VideoCodec.H264, _ => "libx264"
  | VideoCodec.H265, _ => "libx265"
  | VideoCodec.Vp9, _ => "libvpx-vp9"
  | VideoCodec.Av1, _ => "libsvtav1"

/-! ## Hardware acceleration resolver (src/transcoder/hwaccel.rs)

`HwAccelDetector::test_encoder_availability` shells out to the engine; it is
abstracted as a function `avail : String → Bool` fixing one environment
snapshot, exactly as `get_available_encoder` consumes it.
-/

/-- `HwAccelDetector::get_fallback_encoders` (hwaccel.rs lines 296-306). -/
def getFallbackEncoders : VideoCodec → List String
  | VideoCodec.H264 => ["libx264"]
  | VideoCodec.H265 => ["libx265"]
  | VideoCodec.Vp9 => ["libvpx-vp9"]
  | VideoCodec.Av1 => ["libsvtav1", "libaom-av1"]

/-- The `for fallback in &fallback_encoders` loop of
`get_available_encoder` (hwaccel.rs lines 326-334): first encoder in the
list that passes the availability test. -/
def firstAvailable (avail : String → Bool) : List String → Option String
  | [] => Option.none
  | e :: rest => if avail e then some e else firstAvailable avail rest

/-- `HwAccelDetector::get_available_encoder` (hwaccel.rs lines 310-343). -/
def getAvailableEncoder (video_codec : VideoCodec) (hwaccel : HwAccelType)
    (avail : String → Bool) : String × HwAccelType :=
  let preferred := video_codec.encoderName hwaccel
  if avail preferred then (preferred, hwaccel)
  else
    match firstAvailable avail (getFallbackEncoders video_codec) with
    | some fallback => (fallback, HwAccelType.Software)
    | Option.none =>
        ((getFallbackEncoders video_codec).headD "libx264", HwAccelType.Software)

/-! ## Command compiler (src/transcoder/job.rs)

Each `add_*_args` method becomes a function returning the list of arguments
it pushes.  Decimal formatting of numeric fields uses `Nat.repr`, matching
Rust `to_string`/`format!`.
-/

/-- `format!("{}k", n)` for a bitrate field. -/
def kStr (n : Nat) : String :=
  Nat.repr n ++ "k"

/-- `format!("{:.1}", n as f32 / 10.0)` for the `u8` field `aq_strength`
(every `u8` divided by ten prints exactly one decimal digit). -/
def aqStrengthStr (n : Nat) : String :=
  Nat.repr (n / 10) ++ "." ++ Nat.repr (n % 10)

/-- `format!("scale={}:{}", w, h)`. -/
def scaleStr (w h : Nat) : String :=
  "scale=" ++ Nat.repr w ++ ":" ++ Nat.repr h

/-- `TranscodeJob::add_hwaccel_args` (job.rs lines 134-155). -/
def addHwaccelArgs : HwAccelType → List String
  | HwAccelType.Auto => []
  | HwAccelType.Nvenc => ["-hwaccel", "cuda"]
  | HwAccelType.Qsv => ["-hwaccel", "qsv"]
  | HwAccelType.Amf => ["-hwaccel", "d3d11va"]
  | HwAccelType.Software => []

/-- The resolution block of `add_video_args_with_encoder`
(job.rs lines 170-178). -/
def scaleArgs (s : TranscodeSettings) : List String :=
  match s.resolution with
  | VideoResolution.Custom w h => ["-vf", scaleStr w h]
  | res =>
    if res ≠ VideoResolution.Original then
      ["-vf", scaleStr res.dimensions.1 res.dimensions.2]
    else []

/-- `TranscodeJob::add_rate_control_args` (job.rs lines 274-310).  The
`bufsize` for CBR is `target_bitrate * 2`, a `u32` multiplication that
wraps in release builds; the wrap is written out explicitly. -/
def addRateControlArgs (s : TranscodeSettings) (hwaccel : HwAccelType) : List String :=
  match s.rate_control with
  | RateControlMode.Crf =>
    match hwaccel with
    | HwAccelType.Nvenc | HwAccelType.Qsv | HwAccelType.Amf =>
        ["-cq", Nat.repr s.crf]
    | _ => ["-crf", Nat.repr s.crf]
  | RateControlMode.Cbr =>
    ["-b:v", kStr s.target_bitrate, "-maxrate", kStr s.target_bitrate,
     "-bufsize", kStr (s.target_bitrate * 2 % 4294967296)]
  | RateControlMode.Vbr =>
    ["-b:v", kStr s.target_bitrate, "-maxrate", kStr s.max_bitrate,
     "-bufsize", kStr s.max_bitrate]
  | RateControlMode.Cqp => ["-qp", Nat.repr s.crf]

/-- The NVENC preset table of `add_nvenc_args` (job.rs lines 350-356). -/
def nvencPreset : VideoPreset → String
  | VideoPreset.Ultrafast => "p1"
  | VideoPreset.Fast => "p3"
  | VideoPreset.Medium => "p4"
  | VideoPreset.Slow => "p6"
  | VideoPreset.Veryslow => "p7"

/-- `TranscodeJob::add_nvenc_args` (job.rs lines 313-386). -/
def addNvencArgs (s : TranscodeSettings) : List String :=
  ["-tune", s.nvenc_tune.ffmpegValue]
  ++ (match s.rate_control with
      | RateControlMode.Crf => ["-rc", "vbr", "-cq", Nat.repr s.crf]
      | RateControlMode.Cbr => ["-rc", "cbr", "-b:v", kStr s.target_bitrate]
      | RateControlMode.Vbr =>
          ["-rc", "vbr", "-b:v", kStr s.target_bitrate, "-maxrate", kStr s.max_bitrate]
      | RateControlMode.Cqp => ["-rc", "constqp", "-qp", Nat.repr s.crf])
  ++ ["-preset", nvencPreset s.preset]
  ++ ["-multipass", s.nvenc_multipass.ffmpegValue]
  ++ (if s.bframes > 0 then
        ["-bf", Nat.repr s.bframes, "-b_ref_mode", s.nvenc_b_ref_mode.ffmpegValue]
      else [])
  ++ (if s.lookahead > 0 then ["-rc-lookahead", Nat.repr s.lookahead] else [])
  ++ (if s.aq_mode ≠ AqMode.None then
        ["-spatial-aq", "1", "-aq-strength", Nat.repr s.aq_strength]
      else [])

/-- The QSV preset table of `add_qsv_args` (job.rs lines 416-422). -/
def qsvPreset : VideoPreset → String
  | VideoPreset.Ultrafast => "veryfast"
  | VideoPreset.Fast => "faster"
  | VideoPreset.Medium => "medium"
  | VideoPreset.Slow => "slower"
  | VideoPreset.Veryslow => "veryslow"

/-- `TranscodeJob::add_qsv_args` (job.rs lines 389-454). -/
def addQsvArgs (s : TranscodeSettings) : List String :=
  (match s.rate_control with
   | RateControlMode.Crf => ["-global_quality", Nat.repr s.crf]
   | RateControlMode.Cbr =>
       ["-b:v", kStr s.target_bitrate, "-maxrate", kStr s.target_bitrate]
   | RateControlMode.Vbr =>
       ["-b:v", kStr s.target_bitrate, "-maxrate", kStr s.max_bitrate]
   | RateControlMode.Cqp => ["-q", Nat.repr s.crf])
  ++ ["-preset", qsvPreset s.preset]
  ++ (if s.qsv_la_depth > 0 then
        ["-look_ahead", "1", "-look_ahead_depth", Nat.repr s.qsv_la_depth]
      else [])
  ++ (if s.qsv_adaptive_i then ["-adaptive_i", "1"] else [])
  ++ (if s.qsv_adaptive_b then ["-adaptive_b", "1"] else [])
  ++ (if s.bframes > 0 then ["-bf", Nat.repr s.bframes] else [])
  ++ (if s.ref_frames > 0 then ["-refs", Nat.repr s.ref_frames] else [])

/-- `TranscodeJob::add_amf_args` (job.rs lines 457-507).  In the CRF branch
the Rust code computes `self.settings.crf + 2` on a `u8`; the release-mode
wrap-around modulo 256 is written out explicitly (in debug builds this
addition panics for `crf ≥ 254`, see `build_ffmpeg_args_checked`). -/
def addAmfArgs (s : TranscodeSettings) : List String :=
  ["-usage", s.amf_usage.ffmpegValue]
  ++ ["-quality", s.amf_quality.ffmpegValue]
  ++ (match s.rate_control with
      | RateControlMode.Crf =>
          ["-rc", "cqp", "-qp_i", Nat.repr s.crf, "-qp_p", Nat.repr s.crf,
           "-qp_b", Nat.repr ((s.crf + 2) % 256)]
      | RateControlMode.Cbr => ["-rc", "cbr", "-b:v", kStr s.target_bitrate]
      | RateControlMode.Vbr =>
          ["-rc", "vbr_peak", "-b:v", kStr s.target_bitrate, "-maxrate", kStr s.max_bitrate]
      | RateControlMode.Cqp =>
          ["-rc", "cqp", "-qp_i", Nat.repr s.crf, "-qp_p", Nat.repr s.crf])
  ++ (if s.bframes > 0 then ["-bf", Nat.repr s.bframes] else [])

/-- `TranscodeJob::add_x264_args` (job.rs lines 510-553). -/
def addX264Args (s : TranscodeSettings) : List String :=
  ["-profile:v", s.x264_profile.ffmpegValue]
  ++ addRateControlArgs s HwAccelType.Software
  ++ ["-preset", s.preset.ffmpegName]
  ++ (match s.x264_tune.ffmpegValue with
      | some tune => ["-tune", tune]
      | Option.none => [])
  ++ (if s.bframes > 0 then ["-bf", Nat.repr s.bframes] else [])
  ++ (if s.ref_frames > 0 then ["-refs", Nat.repr s.ref_frames] else [])
  ++ (if s.aq_mode ≠ AqMode.None then
        ["-aq-mode", Nat.repr s.aq_mode.ffmpegValue, "-aq-strength", aqStrengthStr s.aq_strength]
      else [])
  ++ (if s.lookahead > 0 then ["-rc-lookahead", Nat.repr s.lookahead] else [])

/-- The `x265_params` vector built by `add_x265_args`
(job.rs lines 577-601). -/
def x265Params (s : TranscodeSettings) : List String :=
  (if s.bframes > 0 then ["bframes=" ++ Nat.repr s.bframes] else [])
  ++ (if s.ref_frames > 0 then ["ref=" ++ Nat.repr s.ref_frames] else [])
  ++ (if s.aq_mode ≠ AqMode.None then
        ["aq-mode=" ++ Nat.repr s.aq_mode.ffmpegValue,
         "aq-strength=" ++ aqStrengthStr s.aq_strength]
      else [])
  ++ (if s.lookahead > 0 then ["rc-lookahead=" ++ Nat.repr s.lookahead] else [])

/-- The x265 tune filter of `add_x265_args` (job.rs lines 565-574). -/
def x265TuneAllowed (tune : String) : Bool :=
  tune == "grain" || tune == "animation" || tune == "zerolatency"
  || tune == "fastdecode" || tune == "psnr" || tune == "ssim"

/-- `TranscodeJob::add_x265_args` (job.rs lines 556-607). -/
def addX265Args (s : TranscodeSettings) : List String :=
  addRateControlArgs s HwAccelType.Software
  ++ ["-preset", s.preset.ffmpegName]
  ++ (match s.x264_tune.ffmpegValue with
      | some tune => if x265TuneAllowed tune then ["-tune", tune] else []
      | Option.none => [])
  ++ (if x265Params s ≠ [] then ["-x265-params", joinColon (x265Params s)] else [])

/-- The VP9 `cpu-used` table of `add_vp9_args` (job.rs lines 637-643). -/
def vp9CpuUsed : VideoPreset → String
  | VideoPreset.Ultrafast => "8"
  | VideoPreset.Fast => "6"
  | VideoPreset.Medium => "4"
  | VideoPreset.Slow => "2"
  | VideoPreset.Veryslow => "0"

/-- `TranscodeJob::add_vp9_args` (job.rs lines 610-681). -/
def addVp9Args (s : TranscodeSettings) : List String :=
  (match s.rate_control with
   | RateControlMode.Crf | RateControlMode.Cqp =>
       ["-b:v", "0", "-crf", Nat.repr s.crf]
   | RateControlMode.Cbr =>
       ["-b:v", kStr s.target_bitrate, "-minrate", kStr s.target_bitrate,
        "-maxrate", kStr s.target_bitrate]
   | RateControlMode.Vbr =>
       ["-b:v", kStr s.target_bitrate, "-maxrate", kStr s.max_bitrate])
  ++ ["-cpu-used", vp9CpuUsed s.preset]
  ++ ["-deadline", "good"]
  ++ ["-row-mt", "1"]
  ++ (if s.vp9_tile_columns > 0 then ["-tile-columns", Nat.repr s.vp9_tile_columns] else [])
  ++ (if s.vp9_tile_rows > 0 then ["-tile-rows", Nat.repr s.vp9_tile_rows] else [])
  ++ (if s.vp9_frame_parallel then ["-frame-parallel", "1"] else [])
  ++ (if s.vp9_auto_alt_ref then
        ["-auto-alt-ref", "1"]
        ++ (if s.vp9_lag_in_frames > 0 then ["-lag-in-frames", Nat.repr s.vp9_lag_in_frames] else [])
      else [])

/-- The libaom `cpu-used` table of `add_libaom_av1_args`
(job.rs lines 705-711). -/
def aomCpuUsed : VideoPreset → String
  | VideoPreset.Ultrafast => "8"
  | VideoPreset.Fast => "6"
  | VideoPreset.Medium => "4"
  | VideoPreset.Slow => "2"
  | VideoPreset.Veryslow => "1"

/-- `TranscodeJob::add_libaom_av1_args` (job.rs lines 684-725). -/
def addLibaomAv1Args (s : TranscodeSettings) : List String :=
  (match s.rate_control with
   | RateControlMode.Crf | RateControlMode.Cqp => ["-crf", Nat.repr s.crf]
   | RateControlMode.Cbr => ["-b:v", kStr s.target_bitrate]
   | RateControlMode.Vbr =>
       ["-b:v", kStr s.target_bitrate, "-maxrate", kStr s.max_bitrate])
  ++ ["-cpu-used", aomCpuUsed s.preset]
  ++ ["-row-mt", "1"]
  ++ ["-tiles", Nat.repr s.av1_tile_columns ++ "x" ++ Nat.repr s.av1_tile_rows]

/-- The SVT-AV1 preset table of `add_svtav1_args` (job.rs lines 751-757). -/
def svtPreset : VideoPreset → String
  | VideoPreset.Ultrafast => "12"
  | VideoPreset.Fast => "10"
  | VideoPreset.Medium => "8"
  | VideoPreset.Slow => "5"
  | VideoPreset.Veryslow => "2"

/-- `TranscodeJob::add_svtav1_args` (job.rs lines 728-777). -/
def addSvtav1Args (s : TranscodeSettings) : List String :=
  (match s.rate_control with
   | RateControlMode.Crf | RateControlMode.Cqp => ["-crf", Nat.repr s.crf]
   | RateControlMode.Cbr =>
       ["-b:v", kStr s.target_bitrate, "-rc", "1"]
   | RateControlMode.Vbr =>
       ["-b:v", kStr s.target_bitrate, "-maxrate", kStr s.max_bitrate])
  ++ ["-preset", svtPreset s.preset]
  ++ (if s.svtav1_film_grain > 0 then
        ["-svtav1-params",
         "film-grain=" ++ Nat.repr s.svtav1_film_grain
           ++ (if s.svtav1_film_grain_denoise then ":film-grain-denoise=1" else "")]
      else [])
  ++ (if s.av1_tile_columns > 0 ∨ s.av1_tile_rows > 0 then
        ["-tile_columns", Nat.repr s.av1_tile_columns,
         "-tile_rows", Nat.repr s.av1_tile_rows]
      else [])

/-- The encoder-family dispatch of `add_video_args_with_encoder`
(job.rs lines 181-264). -/
def familyArgs (s : TranscodeSettings) (encoder : String) (hwaccel : HwAccelType) :
    List String :=
  if encoder = "h264_nvenc" ∨ encoder = "hevc_nvenc" ∨ encoder = "av1_nvenc" then
    addNvencArgs s
  else if encoder = "h264_qsv" ∨ encoder = "hevc_qsv" ∨ encoder = "av1_qsv"
      ∨ encoder = "vp9_qsv" then
    addQsvArgs s
  else if encoder = "h264_amf" ∨ encoder = "hevc_amf" ∨ encoder = "av1_amf" then
    addAmfArgs s
  else if encoder = "libx264" then addX264Args s
  else if encoder = "libx265" then addX265Args s
  else if encoder = "libvpx-vp9" then addVp9Args s
  else if encoder = "libaom-av1" then addLibaomAv1Args s
  else if encoder = "libsvtav1" then addSvtav1Args s
  else addRateControlArgs s hwaccel ++ ["-preset", s.preset.ffmpegName]

/-- `TranscodeJob::add_video_args_with_encoder` (job.rs lines 158-271). -/
def addVideoArgsWithEncoder (s : TranscodeSettings) (encoder : String)
    (hwaccel : HwAccelType) : List String :=
  ["-c:v", encoder]
  ++ scaleArgs s
  ++ familyArgs s encoder hwaccel
  ++ (if s.gop_size > 0 then ["-g", Nat.repr s.gop_size] else [])

/-- `TranscodeJob::add_audio_args` (job.rs lines 789-814). -/
def addAudioArgs (s : TranscodeSettings) : List String :=
  match s.audio_codec with
  | AudioCodec.Copy => ["-c:a", "copy"]
  | AudioCodec.Aac => ["-c:a", "aac", "-b:a", kStr s.audio_bitrate]
  | AudioCodec.Mp3 => ["-c:a", "libmp3lame", "-b:a", kStr s.audio_bitrate]
  | AudioCodec.Flac => ["-c:a", "flac"]

/-- `TranscodeJob::build_ffmpeg_args_with_path` (job.rs lines 90-131).
The input and output paths are the `to_string_lossy` renderings of the
job paths; the availability oracle stands for the engine probe. -/
def buildFfmpegArgs (s : TranscodeSettings) (avail : String → Bool)
    (inputPath outputPath : String) : List String :=
  let resolved := getAvailableEncoder s.video_codec s.hwaccel avail
  addHwaccelArgs resolved.2
  ++ ["-i", inputPath]
  ++ addVideoArgsWithEncoder s resolved.1 resolved.2
  ++ addAudioArgs s
  ++ ["-progress", "pipe:1", "-stats_period", "0.5", "-y", outputPath]

/-! ## Checked-arithmetic variant of the compiler

Debug-mode Rust panics on integer overflow.  The two argument builders that
perform arithmetic on settings fields are repeated here with checked
arithmetic, returning `none` exactly when debug-mode Rust would panic:
`add_amf_args` computes `crf + 2` on a `u8` (job.rs line 476) and
`add_rate_control_args` computes `target_bitrate * 2` on a `u32`
(job.rs line 295).
-/

/-- `add_rate_control_args` with the `u32` multiplication checked. -/
def addRateControlArgsChecked (s : TranscodeSettings) (hwaccel : HwAccelType) :
    Option (List String) :=
  match s.rate_control with
  | RateControlMode.Cbr =>
    if s.target_bitrate * 2 ≤ 4294967295 then
      some ["-b:v", kStr s.target_bitrate, "-maxrate", kStr s.target_bitrate,
            "-bufsize", kStr (s.target_bitrate * 2)]
    else Option.none
  | _ => some (addRateControlArgs s hwaccel)

/-- `add_amf_args` with the `u8` addition `crf + 2` checked. -/
def addAmfArgsChecked (s : TranscodeSettings) : Option (List String) :=
  match s.rate_control with
  | RateControlMode.Crf =>
    if s.crf + 2 ≤ 255 then
      some (["-usage", s.amf_usage.ffmpegValue, "-quality", s.amf_quality.ffmpegValue,
             "-rc", "cqp", "-qp_i", Nat.repr s.crf, "-qp_p", Nat.repr s.crf,
             "-qp_b", Nat.repr (s.crf + 2)]
            ++ (if s.bframes > 0 then ["-bf", Nat.repr s.bframes] else []))
    else Option.none
  | _ => some (addAmfArgs s)

/-- `add_x264_args` with checked rate control. -/
def addX264ArgsChecked (s : TranscodeSettings) : Option (List String) :=
  (addRateControlArgsChecked s HwAccelType.Software).map fun rc =>
    ["-profile:v", s.x264_profile.ffmpegValue]
    ++ rc
    ++ ["-preset", s.preset.ffmpegName]
    ++ (match s.x264_tune.ffmpegValue with
        | some tune => ["-tune", tune]
        | Option.none => [])
    ++ (if s.bframes > 0 then ["-bf", Nat.repr s.bframes] else [])
    ++ (if s.ref_frames > 0 then ["-refs", Nat.repr s.ref_frames] else [])
    ++ (if s.aq_mode ≠ AqMode.None then
          ["-aq-mode", Nat.repr s.aq_mode.ffmpegValue, "-aq-strength", aqStrengthStr s.aq_strength]
        else [])
    ++ (if s.lookahead > 0 then ["-rc-lookahead", Nat.repr s.lookahead] else [])

/-- `add_x265_args` with checked rate control. -/
def addX265ArgsChecked (s : TranscodeSettings) : Option (List String) :=
  (addRateControlArgsChecked s HwAccelType.Software).map fun rc =>
    rc
    ++ ["-preset", s.preset.ffmpegName]
    ++ (match s.x264_tune.ffmpegValue with
        | some tune => if x265TuneAllowed tune then ["-tune", tune] else []
        | Option.none => [])
    ++ (if x265Params s ≠ [] then ["-x265-params", joinColon (x265Params s)] else [])

/-- The encoder-family dispatch with checked arithmetic. -/
def familyArgsChecked (s : TranscodeSettings) (encoder : String)
    (hwaccel : HwAccelType) : Option (List String) :=
  if encoder = "h264_nvenc" ∨ encoder = "hevc_nvenc" ∨ encoder = "av1_nvenc" then
    some (addNvencArgs s)
  else if encoder = "h264_qsv" ∨ encoder = "hevc_qsv" ∨ encoder = "av1_qsv"
      ∨ encoder = "vp9_qsv" then
    some (addQsvArgs s)
  else if encoder = "h264_amf" ∨ encoder = "hevc_amf" ∨ encoder = "av1_amf" then
    addAmfArgsChecked s
  else if encoder = "libx264" then addX264ArgsChecked s
  else if encoder = "libx265" then addX265ArgsChecked s
  else if encoder = "libvpx-vp9" then some (addVp9Args s)
  else if encoder = "libaom-av1" then some (addLibaomAv1Args s)
  else if encoder = "libsvtav1" then some (addSvtav1Args s)
  else (addRateControlArgsChecked s hwaccel).map
        (fun rc => rc ++ ["-preset", s.preset.ffmpegName])

/-- `build_ffmpeg_args_with_path` under debug-mode overflow semantics:
`none` exactly when debug-mode Rust panics. -/
def buildFfmpegArgsChecked (s : TranscodeSettings) (avail : String → Bool)
    (inputPath outputPath : String) : Option (List String) :=
  let resolved := getAvailableEncoder s.video_codec s.hwaccel avail
  (familyArgsChecked s resolved.1 resolved.2).map fun fam =>
    addHwaccelArgs resolved.2
    ++ ["-i", inputPath]
    ++ (["-c:v", resolved.1]
        ++ scaleArgs s
        ++ fam
        ++ (if s.gop_size > 0 then ["-g", Nat.repr s.gop_size] else []))
    ++ addAudioArgs s
    ++ ["-progress", "pipe:1", "-stats_period", "0.5", "-y", outputPath]

/-! ## Output path derivation (src/transcoder/job.rs lines 56-71)

Paths are modelled as strings with Unix separators; `Path::file_name`,
`Path::file_stem` and `PathBuf::join` are modelled after the documented
behaviour of the Rust standard library.
-/

/-- `Path::file_name`: the last non-empty, non-`.` component of the path,
or `none` when there is no such component or it is `..`. -/
def fileName (p : String) : Option String :=
  let comps := (splitOnChar '/' p.data).filter fun c => c ≠ [] ∧ c ≠ ['.']
  match comps.getLast? with
  | some c => if c = ['.', '.'] then Option.none else some ⟨c⟩
  | Option.none => Option.none

/-- `Path::file_stem`: the file name with its extension removed; a lone
leading dot does not start an extension. -/
def fileStem (p : String) : Option String :=
  (fileName p).map fun n =>
    let parts := splitOnChar '.' n.data
    match parts with
    | [] => n
    | [_] => n
    | [[], _] => n
    | _ => ⟨joinChar '.' parts.dropLast⟩

/-- `PathBuf::join`: appending a relative path adds a separator; an
absolute right-hand side replaces the left-hand side. -/
def joinPath (dir name : String) : String :=
  if name.data.head? = some '/' then name
  else if dir = "" then name
  else if dir.data.getLast? = some '/' then dir ++ name
  else dir ++ "/" ++ name

/-- `TranscodeJob::generate_output_path` (job.rs lines 57-71). -/
def generateOutputPath (inputPath outputDir suffix : String)
    (s : TranscodeSettings) : String :=
  let stem := (fileStem inputPath).getD "output"
  joinPath outputDir (stem ++ suffix ++ "." ++ s.container.extension)

/-! ## Progress model (src/app.rs, src/transcoder/progress.rs)

The progress arithmetic uses only field operations, `min`, `max` and
truncating casts on `f32`/`f64`, so it is modelled exactly over `ℚ`.
Rust float-to-integer `as` casts truncate toward zero and saturate; for
the non-negative values that occur here this is `Int.toNat ∘ Int.floor`
with an upper saturation bound.
-/

/-- Rust `as u32` on a float: truncate toward zero, saturate at the type
bounds (negative values saturate to 0, which `Int.toNat` provides). -/
def ratToU32 (q : ℚ) : ℕ :=
  Int.toNat (min ⌊q⌋ 4294967295)

/-- Rust `as u64` on a float. -/
def ratToU64 (q : ℚ) : ℕ :=
  Int.toNat (min ⌊q⌋ 18446744073709551615)

/-- `CurrentProgress::set_progress` (app.rs lines 54-57): the permyriad
value stored into the shared atomic. -/
def setProgressPermyriad (p : ℚ) : ℕ :=
  ratToU32 (min (max (p * 10000) 0) 10000)

/-- `CurrentProgress::get_progress` (app.rs lines 49-51). -/
def getProgressOfPermyriad (n : ℕ) : ℚ :=
  (n : ℚ) / 10000

/-- `CurrentProgress::update_progress_from_time` (app.rs lines 144-151):
the permyriad value stored, given the total duration in centiseconds held
by the shared state and the reported media time in seconds; when the total
is not positive the stored value is unchanged. -/
def updateProgressFromTime (totalCentisecs : ℕ) (t : ℚ) (old : ℕ) : ℕ :=
  let total : ℚ := (totalCentisecs : ℚ) / 100
  if 0 < total then setProgressPermyriad (min (t / total) 1) else old

/-- `CurrentProgress::set_remaining_secs` (app.rs lines 81-84): stored
centiseconds, with `0xFFFFFFFF` as the `None` marker. -/
def setRemainingCentisecs (r : Option ℚ) : ℕ :=
  match r with
  | some s_ => ratToU32 (s_ * 100)
  | Option.none => 4294967295

/-- `CurrentProgress::get_remaining_secs` (app.rs lines 71-78). -/
def getRemainingSecs (n : ℕ) : Option ℚ :=
  if n = 4294967295 then Option.none else some ((n : ℚ) / 100)

/-- The remaining-time update in `MainWindow::start_transcode`
(main_window.rs lines 272-278): performed only when the fraction exceeds
0.01, otherwise the stored value is untouched. -/
def mainWindowRemainingUpdate (progress elapsed : ℚ) (old : ℕ) : ℕ :=
  if 1 / 100 < progress then
    setRemainingCentisecs (some (max (elapsed / progress - elapsed) 0))
  else old

/-- The atomic counters read by `ProgressFilter::get_progress`
(progress.rs lines 51-68). -/
structure FilterState where
  framesProcessed : ℕ
  totalFrames : ℕ
  totalDurationUs : ℕ
  currentTimeUs : ℕ
  currentSize : ℕ
deriving DecidableEq, Repr

/-- The fraction computed by `ProgressFilter::get_progress`
(progress.rs lines 144-155): time based when a duration is known, frame
based otherwise, zero when neither total is known. -/
def progressOf (st : FilterState) : ℚ :=
  if 0 < st.totalDurationUs then
    min ((st.currentTimeUs : ℚ) / (st.totalDurationUs : ℚ)) 1
  else if 0 < st.totalFrames then
    min ((st.framesProcessed : ℚ) / (st.totalFrames : ℚ)) 1
  else 0

/-- The remaining-time estimate of `ProgressFilter::get_progress`
(progress.rs lines 157-164). -/
def remainingOf (st : FilterState) (elapsed : ℚ) : Option ℚ :=
  let p := progressOf st
  if 0 < p ∧ p < 1 then some (max (elapsed / p - elapsed) 0) else Option.none

/-- The estimated final size of `ProgressFilter::get_progress`
(progress.rs lines 166-172). -/
def estimatedSizeOf (st : FilterState) : Option ℕ :=
  let p := progressOf st
  if 1 / 20 < p ∧ 0 < st.currentSize then
    some (ratToU64 ((st.currentSize : ℚ) / p))
  else Option.none

/-! ## Error classifier (src/transcoder/error.rs)

`FfmpegError::parse` is modelled at the level of its `kind` field; the
pattern predicates below take the already-lowercased text, exactly as the
Rust function computes `stderr_lower` once. -/

/-- `FfmpegErrorKind` (error.rs lines 5-28). -/
inductive FfmpegErrorKind where
  | EncoderNotSupported (enc : String)
  | DecoderNotSupported (dec : String)
  | HwAccelNotAvailable (hw : String)
  | InputNotFound
  | InputCorrupted
  | OutputWriteError
  | DiskFull
  | OutOfMemory
  | PermissionDenied
  | InvalidCodecOption (opt : String)
  | Unknown (line : String)
deriving DecidableEq, Repr

/-- Encoder-not-found patterns (error.rs lines 49-52). -/
def encPat (l : String) : Bool :=
  containsStr l "unknown encoder"
  || (containsStr l "encoder" && containsStr l "not found")
  || containsStr l "no such encoder"

/-- Intel QSV failure signatures (error.rs lines 59-77). -/
def qsvPat (l : String) : Bool :=
  containsStr l "no qsv-supporting device"
  || (containsStr l "device creation failed" && containsStr l "qsv")
  || (containsStr l "mfx" && (containsStr l "error" || containsStr l "failed"))
  || (containsStr l "h264_qsv"
      && (containsStr l "error" || containsStr l "failed" || containsStr l "not found"))
  || (containsStr l "hevc_qsv"
      && (containsStr l "error" || containsStr l "failed" || containsStr l "not found"))
  || (containsStr l "av1_qsv"
      && (containsStr l "error" || containsStr l "failed" || containsStr l "not found"))
  || (containsStr l "libmfx" && containsStr l "not found")
  || (containsStr l "qsv" && containsStr l "init")

/-- NVIDIA NVENC failure signatures (error.rs lines 82-93). -/
def nvencPat (l : String) : Bool :=
  containsStr l "no nvenc capable devices found"
  || containsStr l "cannot load nvcuda.dll"
  || containsStr l "cannot load nvencodeapi"
  || (containsStr l "h264_nvenc"
      && (containsStr l "error" || containsStr l "failed" || containsStr l "not found"))
  || (containsStr l "hevc_nvenc"
      && (containsStr l "error" || containsStr l "failed" || containsStr l "not found"))

/-- AMD AMF failure signatures (error.rs lines 98-108). -/
def amfPat (l : String) : Bool :=
  containsStr l "amf failed"
  || containsStr l "no amf capable device"
  || (containsStr l "h264_amf"
      && (containsStr l "error" || containsStr l "failed" || containsStr l "not found"))
  || (containsStr l "hevc_amf"
      && (containsStr l "error" || containsStr l "failed" || containsStr l "not found"))

/-- Generic hardware-acceleration keywords (error.rs lines 113-118). -/
def hwKwPat (l : String) : Bool :=
  containsStr l "nvenc" || containsStr l "qsv" || containsStr l "amf"
  || containsStr l "cuda" || containsStr l "d3d11" || containsStr l "vaapi"

/-- Generic hardware failure verbs (error.rs lines 120-124). -/
def hwVerbPat (l : String) : Bool :=
  containsStr l "cannot load" || containsStr l "failed to" || containsStr l "not found"
  || containsStr l "unavailable" || containsStr l "no capable devices"

/-- Decoder-not-found patterns (error.rs lines 132-133). -/
def decPat (l : String) : Bool :=
  (containsStr l "decoder" && containsStr l "not found")
  || containsStr l "unknown decoder"

/-- Missing-input patterns (error.rs lines 140-142). -/
def inputNotFoundPat (l : String) : Bool :=
  containsStr l "no such file" || containsStr l "does not exist"
  || containsStr l "file not found"

/-- Corrupted-input patterns (error.rs lines 147-150). -/
def corruptPat (l : String) : Bool :=
  containsStr l "invalid data found" || containsStr l "corrupt"
  || containsStr l "moov atom not found"
  || (containsStr l "end of file" && containsStr l "invalid")

/-- Permission patterns (error.rs line 156). -/
def permPat (l : String) : Bool :=
  containsStr l "permission denied" || containsStr l "access denied"

/-- Disk-space patterns (error.rs lines 160-162). -/
def diskPat (l : String) : Bool :=
  containsStr l "no space left" || containsStr l "disk full"
  || containsStr l "not enough space"

/-- Output-open patterns (error.rs lines 167-168). -/
def outputPat (l : String) : Bool :=
  containsStr l "cannot open" && (containsStr l "output" || containsStr l "writing")

/-- Out-of-memory patterns (error.rs lines 174-176). -/
def memPat (l : String) : Bool :=
  containsStr l "out of memory" || containsStr l "memory allocation failed"
  || containsStr l "cannot allocate"

/-- Invalid-option patterns (error.rs lines 182-184). -/
def optPat (l : String) : Bool :=
  (containsStr l "option" && containsStr l "not found")
  || containsStr l "unrecognized option" || containsStr l "invalid option"

/-- Split a character list on a decidable character class. -/
def splitOnPred (p : Char → Bool) : List Char → List (List Char)
  | [] => [[]]
  | c :: rest =>
    let r := splitOnPred p rest
    if p c then [] :: r
    else
      match r with
      | [] => [[c]]
      | h :: t => (c :: h) :: t

/-- Rust `str::lines`: split at newlines, tolerate a final line ending,
strip a trailing carriage return from each line. -/
def rustLines (s : String) : List String :=
  let parts := splitOnChar '\n' s.data
  let parts :=
    match parts.getLast? with
    | some [] => parts.dropLast
    | _ => parts
  parts.map fun l => ⟨if l.getLast? = some '\r' then l.dropLast else l⟩

/-- The text between the first two single quotes of a line, as used by the
extractors (error.rs lines 358-362): Rust finds the first quote and the
next one after it, which is the second chunk of a quote split whenever the
line holds at least two quotes. -/
def betweenQuotes (line : String) : Option String :=
  match splitOnChar '\'' line.data with
  | _ :: mid :: _ :: _ => some ⟨mid⟩
  | _ => Option.none

/-- Rust `str::split_whitespace`. -/
def splitWsStr (line : String) : List String :=
  ((splitOnPred Char.isWhitespace line.data).filter fun w => w ≠ []).map
    fun w => (⟨w⟩ : String)

/-- Rust `trim_matches(|c| c == quote or double quote)`. -/
def trimQuotes (w : List Char) : List Char :=
  let f := fun c => c == '\'' || c == '"'
  ((w.dropWhile f).reverse.dropWhile f).reverse

/-- The word scan of `extract_encoder_name` (error.rs lines 364-372):
look for a word equal to `encoder` and return the next word, unless it is
empty or the word `not`. -/
def scanEncoderWords : List String → Option String
  | [] => Option.none
  | [_] => Option.none
  | w :: next :: rest =>
    if lowerStr w = "encoder" then
      let name : String := ⟨trimQuotes next.data⟩
      if name ≠ "" ∧ name ≠ "not" then some name
      else scanEncoderWords (next :: rest)
    else scanEncoderWords (next :: rest)

/-- The per-line loop of `FfmpegError::extract_encoder_name`
(error.rs lines 352-376). -/
def extractEncoderGo : List String → String
  | [] => "不明"
  | line :: rest =>
    if containsStr (lowerStr line) "encoder" then
      match betweenQuotes line with
      | some name => name
      | Option.none =>
        match scanEncoderWords (splitWsStr line) with
        | some name => name
        | Option.none => extractEncoderGo rest
    else extractEncoderGo rest

/-- `FfmpegError::extract_encoder_name`. -/
def extractEncoderName (stderr : String) : String :=
  extractEncoderGo (rustLines stderr)

/-- The per-line loop of `FfmpegError::extract_decoder_name`
(error.rs lines 379-391), quoted names only. -/
def extractQuotedGo (keyword : String) : List String → String
  | [] => "不明"
  | line :: rest =>
    if containsStr (lowerStr line) keyword then
      match betweenQuotes line with
      | some name => name
      | Option.none => extractQuotedGo keyword rest
    else extractQuotedGo keyword rest

/-- `FfmpegError::extract_decoder_name`. -/
def extractDecoderName (stderr : String) : String :=
  extractQuotedGo "decoder" (rustLines stderr)

/-- `FfmpegError::extract_option_name` (error.rs lines 436-447). -/
def extractOptionName (stderr : String) : String :=
  extractQuotedGo "option" (rustLines stderr)

/-- `FfmpegError::extract_hwaccel_name` (error.rs lines 396-433). -/
def extractHwaccelName (stderr : String) : String :=
  let l := lowerStr stderr
  if containsStr l "h264_qsv" || containsStr l "hevc_qsv"
      || containsStr l "av1_qsv" || containsStr l "vp9_qsv" then "Intel QSV"
  else if containsStr l "h264_amf" || containsStr l "hevc_amf"
      || containsStr l "av1_amf" then "AMD AMF"
  else if containsStr l "h264_nvenc" || containsStr l "hevc_nvenc"
      || containsStr l "av1_nvenc" then "NVIDIA NVENC"
  else if containsStr l "qsv" || containsStr l "quick sync"
      || containsStr l "mfx" then "Intel QSV"
  else if containsStr l "amf" || containsStr l "advanced media framework" then "AMD AMF"
  else if containsStr l "nvenc" || containsStr l "cuda"
      || containsStr l "nvcuda" then "NVIDIA NVENC"
  else if containsStr l "vaapi" then "VAAPI"
  else "ハードウェアアクセラレーション"

/-- The last error-indicating line used by the unknown bucket
(error.rs lines 330-341). -/
def lastErrorLine (stderr : String) : String :=
  (((rustLines stderr).filter fun line =>
      let low := lowerStr line
      containsStr low "error" || containsStr low "failed"
        || containsStr low "cannot" || containsStr low "unable").getLast?).getD
    "変換中にエラーが発生しました"

/-- `FfmpegError::parse` (error.rs lines 45-192), at the level of the
`kind` field.  The cascade order is that of the source: encoder-not-found
first, then the vendor-specific QSV, NVENC and AMF signatures, then the
generic hardware patterns, then decoder, input, filesystem, memory and
option patterns, and finally the unknown bucket. -/
def ffmpegParseKind (stderr : String) : FfmpegErrorKind :=
  let l := lowerStr stderr
  if encPat l then FfmpegErrorKind.EncoderNotSupported (extractEncoderName stderr)
  else if qsvPat l then FfmpegErrorKind.HwAccelNotAvailable "Intel QSV"
  else if nvencPat l then FfmpegErrorKind.HwAccelNotAvailable "NVIDIA NVENC"
  else if amfPat l then FfmpegErrorKind.HwAccelNotAvailable "AMD AMF"
  else if hwKwPat l && hwVerbPat l then
    FfmpegErrorKind.HwAccelNotAvailable (extractHwaccelName stderr)
  else if decPat l then FfmpegErrorKind.DecoderNotSupported (extractDecoderName stderr)
  else if inputNotFoundPat l then FfmpegErrorKind.InputNotFound
  else if corruptPat l then FfmpegErrorKind.InputCorrupted
  else if permPat l then FfmpegErrorKind.PermissionDenied
  else if diskPat l then FfmpegErrorKind.DiskFull
  else if outputPat l then FfmpegErrorKind.OutputWriteError
  else if memPat l then FfmpegErrorKind.OutOfMemory
  else if optPat l then FfmpegErrorKind.InvalidCodecOption (extractOptionName stderr)
  else FfmpegErrorKind.Unknown (lastErrorLine stderr)

/-! ## Size estimator (src/transcoder/progress.rs lines 237-625)

The estimator mixes field arithmetic with `powf` and `sqrt`, so it is
modelled over `ℝ` with `Real.rpow` and `Real.sqrt`.  Both code paths end
in a clamp to `[0.03, 5.0]`, written `min (max x lo) hi` as in `f64::clamp`
and `max`/`min` chains of the source.
-/

/-- `ContentType` (progress.rs lines 239-251). -/
inductive ContentType where
  | Static | Anime | Normal | HighMotion | ScreenRecord
deriving DecidableEq, Repr

/-- `VideoMetadata` (progress.rs lines 290-305). -/
structure VideoMetadata where
  resolution : Option (Nat × Nat)
  fps : Option ℝ
  duration : Option ℝ
  content_type : ContentType
  source_video_bitrate : Option Nat
  source_audio_bitrate : Option Nat
  source_overall_bitrate : Option Nat

/-- The all-default metadata (`VideoMetadata::default`). -/
def defaultMetadata : VideoMetadata where
  resolution := Option.none
  fps := Option.none
  duration := Option.none
  content_type := ContentType.Normal
  source_video_bitrate := Option.none
  source_audio_bitrate := Option.none
  source_overall_bitrate := Option.none

noncomputable section

/-- `ContentType::motion_factor` (progress.rs lines 255-263). -/
def motionFactor : ContentType → ℝ
  | ContentType.Static => 0.20
  | ContentType.ScreenRecord => 0.35
  | ContentType.Anime => 0.50
  | ContentType.Normal => 1.00
  | ContentType.HighMotion => 1.60

/-- The per-codec CRF divisor (progress.rs lines 377-382 and 476-481). -/
def crfDivisor : VideoCodec → ℝ
  | VideoCodec.H264 => 6.0
  | VideoCodec.H265 => 5.5
  | VideoCodec.Vp9 => 5.8
  | VideoCodec.Av1 => 5.0

/-- Typical bitrate at CRF 23 in Mbps (progress.rs lines 397-402). -/
def typicalBitrateMbps : VideoCodec → ℝ
  | VideoCodec.H264 => 8.0
  | VideoCodec.H265 => 4.0
  | VideoCodec.Vp9 => 3.6
  | VideoCodec.Av1 => 2.3

/-- Codec efficiency relative to the H.265 baseline
(progress.rs lines 511-516). -/
def codecEfficiency : VideoCodec → ℝ
  | VideoCodec.H264 => 2.00
  | VideoCodec.H265 => 1.00
  | VideoCodec.Vp9 => 0.90
  | VideoCodec.Av1 => 0.57

/-- Preset size factor (progress.rs lines 417-423 and 519-525). -/
def presetFactor : VideoPreset → ℝ
  | VideoPreset.Ultrafast => 1.55
  | VideoPreset.Fast => 1.18
  | VideoPreset.Medium => 1.00
  | VideoPreset.Slow => 0.89
  | VideoPreset.Veryslow => 0.81

/-- Hardware-acceleration size factor (progress.rs lines 426-434 and
528-545); match arms in source order. -/
def hwaccelFactor : HwAccelType → VideoCodec → ℝ
  | HwAccelType.Software, _ => 1.00
  | HwAccelType.Nvenc, VideoCodec.Av1 => 1.10
  | HwAccelType.Nvenc, _ => 1.30
  | HwAccelType.Qsv, _ => 1.18
  | HwAccelType.Amf, _ => 1.20
  | HwAccelType.Auto, VideoCodec.Av1 => 1.05
  | HwAccelType.Auto, _ => 1.15

open scoped Classical in
/-- `estimate_from_source_bitrate` (progress.rs lines 363-465), under the
real-valued reading where division is total (division by zero yields 0).
The f64 computation additionally produces infinities and NaN on
degenerate inputs; that level is modelled separately by
`estimateFromSourceBitrateF` below. -/
def estimateFromSourceBitrate (s : TranscodeSettings) (m : VideoMetadata)
    (source_video_bitrate : Nat) (srcRes tgtRes : Nat × Nat) (srcFps : ℝ) : ℝ :=
  let crfFactor : ℝ :=
    Real.rpow 2 (((23 : ℝ) - (s.crf : ℝ)) / crfDivisor s.video_codec)
  let srcPixels : ℝ := (srcRes.1 : ℝ) * (srcRes.2 : ℝ)
  let tgtPixels : ℝ := (tgtRes.1 : ℝ) * (tgtRes.2 : ℝ)
  let resolutionFactor : ℝ :=
    if 0 < srcPixels then Real.rpow (tgtPixels / srcPixels) 0.85 else 1
  let srcMbps : ℝ := (source_video_bitrate : ℝ) / 1000000
  let normalizedSrcMbps : ℝ := srcMbps * (1920 * 1080 / srcPixels) * (30 / srcFps)
  let complexityFactor : ℝ := min (max (Real.sqrt (normalizedSrcMbps / 10)) 0.5) 2
  let baseTargetMbps : ℝ :=
    typicalBitrateMbps s.video_codec * crfFactor * resolutionFactor * complexityFactor
  let targetVideoMbps : ℝ :=
    baseTargetMbps * presetFactor s.preset * hwaccelFactor s.hwaccel s.video_codec
      * motionFactor m.content_type
  let targetVideoBitrate : ℝ := targetVideoMbps * 1000000
  let videoRel : ℝ := targetVideoBitrate / (source_video_bitrate : ℝ)
  let sourceAudio : Nat := m.source_audio_bitrate.getD 192000
  let targetAudio : ℝ :=
    match s.audio_codec with
    | AudioCodec.Copy => (sourceAudio : ℝ)
    | AudioCodec.Aac => (s.audio_bitrate : ℝ) * 1000
    | AudioCodec.Mp3 => (s.audio_bitrate : ℝ) * 1000
    | AudioCodec.Flac => (sourceAudio : ℝ) * 2.5
  let totalSourceBitrate : Nat :=
    m.source_overall_bitrate.getD (source_video_bitrate + sourceAudio)
  let audioPortion : ℝ := (sourceAudio : ℝ) / (totalSourceBitrate : ℝ)
  let videoPortion : ℝ := 1 - audioPortion
  let audioRel : ℝ := targetAudio / (sourceAudio : ℝ)
  let totalRel : ℝ := videoPortion * videoRel + audioPortion * audioRel
  min (max totalRel 0.03) 5.0

open scoped Classical in
/-- `estimate_from_compression_ratio` (progress.rs lines 468-625), the
heuristic path used when no source bitrate is known. -/
def estimateFromCompressionHeuristic (s : TranscodeSettings) (m : VideoMetadata)
    (srcRes tgtRes : Nat × Nat) (srcFps : ℝ) : ℝ :=
  let crfFactor : ℝ :=
    Real.rpow 2 (((23 : ℝ) - (s.crf : ℝ)) / crfDivisor s.video_codec)
  let srcPixels : ℝ := (srcRes.1 : ℝ) * (srcRes.2 : ℝ)
  let tgtPixels : ℝ := (tgtRes.1 : ℝ) * (tgtRes.2 : ℝ)
  let resolutionFactor : ℝ :=
    if 0 < srcPixels ∧ 0 < tgtPixels then
      let pixelQuot : ℝ := tgtPixels / srcPixels
      let shortSideSource : ℝ := (min srcRes.1 srcRes.2 : Nat)
      let shortSideTarget : ℝ := (min tgtRes.1 tgtRes.2 : Nat)
      let shortSideQuot : ℝ := shortSideTarget / max shortSideSource 1
      Real.rpow pixelQuot 0.95 * Real.rpow shortSideQuot 0.05
    else 1
  let fpsFactor : ℝ := Real.rpow (srcFps / 30) 0.9
  let durationHours : ℝ := m.duration.getD 0 / 3600
  let audioSizeMb : ℝ :=
    if 0 < durationHours then
      match s.audio_codec with
      | AudioCodec.Copy => 0
      | AudioCodec.Aac =>
          (if s.audio_bitrate ≤ 128 then (8 : ℝ)
           else if s.audio_bitrate ≤ 192 then 12
           else if s.audio_bitrate ≤ 256 then 18
           else 22) * durationHours
      | AudioCodec.Mp3 =>
          (if s.audio_bitrate ≤ 128 then (9 : ℝ)
           else if s.audio_bitrate ≤ 192 then 13
           else if s.audio_bitrate ≤ 256 then 19
           else 23) * durationHours
      | AudioCodec.Flac => 100 * durationHours
    else 0
  let videoCompression : ℝ :=
    crfFactor * resolutionFactor * fpsFactor * motionFactor m.content_type
      * codecEfficiency s.video_codec * presetFactor s.preset
      * hwaccelFactor s.hwaccel s.video_codec
  let audioShare : ℝ := 0.10
  let videoShare : ℝ := 1 - audioShare
  let audioFactor : ℝ :=
    match s.audio_codec with
    | AudioCodec.Copy => audioShare
    | AudioCodec.Aac => audioShare * ((s.audio_bitrate : ℝ) / 192) * 0.7
    | AudioCodec.Mp3 => audioShare * ((s.audio_bitrate : ℝ) / 192) * 0.8
    | AudioCodec.Flac => audioShare * 2.0
  if 0 < durationHours ∧ 0 < audioSizeMb then
    min (max (videoShare * videoCompression + audioFactor) 0.03) 5.0
  else
    min (max (videoShare * videoCompression + audioFactor) 0.03) 5.0

open scoped Classical in
/-- `estimate_compression_ratio_advanced` (progress.rs lines 320-360). -/
def estimateCompressionRatioAdvanced (s : TranscodeSettings) (m : VideoMetadata) : ℝ :=
  let srcRes := m.resolution.getD (1920, 1080)
  let srcFps : ℝ := m.fps.getD 30
  let tgtRes :=
    match s.resolution with
    | VideoResolution.Original => srcRes
    | res =>
      let dims := res.dimensions
      if dims.1 = 0 ∨ dims.2 = 0 then srcRes else dims
  match m.source_video_bitrate with
  | some svb => estimateFromSourceBitrate s m svb srcRes tgtRes srcFps
  | Option.none => estimateFromCompressionHeuristic s m srcRes tgtRes srcFps

end

/-! ## Float-level value model for the estimator

The clamp-bounds claim is sensitive to the IEEE special values: Rust
`f64::clamp` propagates NaN (source-bitrate path), while the `max`/`min`
chain of the heuristic path replaces NaN by the bound.  `F64` models an
f64 value as an exact real, a signed infinity or NaN.  Finite arithmetic
is carried out exactly: the estimator magnitudes stay far below the f64
overflow threshold, so no finite operation can overflow, and rounding
never creates a special value, so this model is faithful for the
bounds claim.  Two documented simplifications: signed zeros are
identified (every zero reaching a division here comes from a non-negative
cast), and `powf` on a negative finite base returns NaN, which is the
IEEE result for the non-integer exponents 0.85, 0.95, 0.05 and 0.9 used
by the estimator. -/

/-- An f64 value: exact finite real, signed infinity, or NaN. -/
inductive F64 where
  | finite (q : ℝ)
  | posInf
  | negInf
  | nan

noncomputable section

/-- IEEE addition on `F64`. -/
def F64.add : F64 → F64 → F64
  | F64.nan, _ => F64.nan
  | _, F64.nan => F64.nan
  | F64.posInf, F64.negInf => F64.nan
  | F64.negInf, F64.posInf => F64.nan
  | F64.posInf, _ => F64.posInf
  | _, F64.posInf => F64.posInf
  | F64.negInf, _ => F64.negInf
  | _, F64.negInf => F64.negInf
  | F64.finite a, F64.finite b => F64.finite (a + b)

/-- IEEE subtraction on `F64`. -/
def F64.sub : F64 → F64 → F64
  | F64.nan, _ => F64.nan
  | _, F64.nan => F64.nan
  | F64.posInf, F64.posInf => F64.nan
  | F64.negInf, F64.negInf => F64.nan
  | F64.posInf, _ => F64.posInf
  | _, F64.posInf => F64.negInf
  | F64.negInf, _ => F64.negInf
  | _, F64.negInf => F64.posInf
  | F64.finite a, F64.finite b => F64.finite (a - b)

open scoped Classical in
/-- IEEE multiplication on `F64`; in particular `0 * ±inf = NaN`. -/
def F64.mul : F64 → F64 → F64
  | F64.nan, _ => F64.nan
  | _, F64.nan => F64.nan
  | F64.posInf, F64.posInf => F64.posInf
  | F64.posInf, F64.negInf => F64.negInf
  | F64.negInf, F64.posInf => F64.negInf
  | F64.negInf, F64.negInf => F64.posInf
  | F64.posInf, F64.finite b =>
      if 0 < b then F64.posInf else if b < 0 then F64.negInf else F64.nan
  | F64.finite a, F64.posInf =>
      if 0 < a then F64.posInf else if a < 0 then F64.negInf else F64.nan
  | F64.negInf, F64.finite b =>
      if 0 < b then F64.negInf else if b < 0 then F64.posInf else F64.nan
  | F64.finite a, F64.negInf =>
      if 0 < a then F64.negInf else if a < 0 then F64.posInf else F64.nan
  | F64.finite a, F64.finite b => F64.finite (a * b)

open scoped Classical in
/-- IEEE division on `F64`; in particular `x / 0 = ±inf` for `x ≠ 0` and
`0 / 0 = NaN`. -/
def F64.div : F64 → F64 → F64
  | F64.nan, _ => F64.nan
  | _, F64.nan => F64.nan
  | F64.posInf, F64.posInf => F64.nan
  | F64.posInf, F64.negInf => F64.nan
  | F64.negInf, F64.posInf => F64.nan
  | F64.negInf, F64.negInf => F64.nan
  | F64.posInf, F64.finite b => if 0 ≤ b then F64.posInf else F64.negInf
  | F64.negInf, F64.finite b => if 0 ≤ b then F64.negInf else F64.posInf
  | F64.finite _, F64.posInf => F64.finite 0
  | F64.finite _, F64.negInf => F64.finite 0
  | F64.finite a, F64.finite b =>
      if b = 0 then
        if 0 < a then F64.posInf else if a < 0 then F64.negInf else F64.nan
      else F64.finite (a / b)

/-- IEEE square root on `F64`: NaN for negative arguments. -/
def F64.sqrt : F64 → F64
  | F64.nan => F64.nan
  | F64.posInf => F64.posInf
  | F64.negInf => F64.nan
  | F64.finite a => if 0 ≤ a then F64.finite (Real.sqrt a) else F64.nan

open scoped Classical in
/-- IEEE `powf` on `F64`.  A negative finite base maps to NaN, the IEEE
result for every non-integer exponent used by the estimator; the
odd-integer-exponent sign refinements of IEEE `pow` are unreachable
here. -/
def F64.rpow : F64 → F64 → F64
  | F64.nan, _ => F64.nan
  | _, F64.nan => F64.nan
  | F64.posInf, F64.posInf => F64.posInf
  | F64.posInf, F64.negInf => F64.finite 0
  | F64.negInf, F64.posInf => F64.posInf
  | F64.negInf, F64.negInf => F64.finite 0
  | F64.posInf, F64.finite b =>
      if 0 < b then F64.posInf else if b < 0 then F64.finite 0 else F64.finite 1
  | F64.negInf, F64.finite b =>
      if 0 < b then F64.posInf else if b < 0 then F64.finite 0 else F64.finite 1
  | F64.finite a, F64.posInf =>
      if 1 < a ∨ a < -1 then F64.posInf
      else if a = 1 ∨ a = -1 then F64.finite 1
      else F64.finite 0
  | F64.finite a, F64.negInf =>
      if 1 < a ∨ a < -1 then F64.finite 0
      else if a = 1 ∨ a = -1 then F64.finite 1
      else F64.posInf
  | F64.finite a, F64.finite b =>
      if 0 < a then F64.finite (Real.rpow a b)
      else if a = 0 then
        if b = 0 then F64.finite 1 else if 0 < b then F64.finite 0 else F64.posInf
      else F64.nan

/-- Rust `f64::clamp` on `F64`: NaN passes through unclamped. -/
def F64.clamp (x : F64) (lo hi : ℝ) : F64 :=
  match x with
  | F64.nan => F64.nan
  | F64.posInf => F64.finite hi
  | F64.negInf => F64.finite lo
  | F64.finite a => F64.finite (min hi (max lo a))

/-- Rust `f64::max` on `F64`: NaN is ignored, not propagated. -/
def F64.max : F64 → F64 → F64
  | F64.nan, y => y
  | x, F64.nan => x
  | F64.posInf, _ => F64.posInf
  | _, F64.posInf => F64.posInf
  | F64.negInf, y => y
  | x, F64.negInf => x
  | F64.finite a, F64.finite b => F64.finite (Max.max a b)

/-- Rust `f64::min` on `F64`: NaN is ignored, not propagated. -/
def F64.min : F64 → F64 → F64
  | F64.nan, y => y
  | x, F64.nan => x
  | F64.negInf, _ => F64.negInf
  | _, F64.negInf => F64.negInf
  | F64.posInf, y => y
  | x, F64.posInf => x
  | F64.finite a, F64.finite b => F64.finite (Min.min a b)

/-- The comparison `x > 0.0`, false for NaN. -/
def F64.isPos : F64 → Prop
  | F64.finite a => 0 < a
  | F64.posInf => True
  | _ => False

/-- The value is a number inside the documented clamp interval; NaN and
the infinities are not. -/
def F64.withinClamp : F64 → Prop
  | F64.finite q => 0.03 ≤ q ∧ q ≤ 5.0
  | _ => False

open scoped Classical in
/-- `estimate_from_source_bitrate` (progress.rs lines 363-465) at the
level of f64 values: the same computation as `estimateFromSourceBitrate`,
with every floating-point operation carried out in `F64`, so that
infinities and NaN arise and propagate exactly as in the Rust code — in
particular through the final `f64::clamp`. -/
def estimateFromSourceBitrateF (s : TranscodeSettings) (m : VideoMetadata)
    (source_video_bitrate : Nat) (srcRes tgtRes : Nat × Nat) (srcFps : F64) : F64 :=
  let crfFactor := F64.rpow (F64.finite 2)
    (F64.div (F64.sub (F64.finite 23) (F64.finite (s.crf : ℝ)))
      (F64.finite (crfDivisor s.video_codec)))
  let srcPixels := F64.mul (F64.finite (srcRes.1 : ℝ)) (F64.finite (srcRes.2 : ℝ))
  let tgtPixels := F64.mul (F64.finite (tgtRes.1 : ℝ)) (F64.finite (tgtRes.2 : ℝ))
  let resolutionFactor :=
    if F64.isPos srcPixels then F64.rpow (F64.div tgtPixels srcPixels) (F64.finite 0.85)
    else F64.finite 1
  let srcMbps := F64.div (F64.finite (source_video_bitrate : ℝ)) (F64.finite 1000000)
  let normalizedSrcMbps :=
    F64.mul
      (F64.mul srcMbps
        (F64.div (F64.mul (F64.finite 1920) (F64.finite 1080)) srcPixels))
      (F64.div (F64.finite 30) srcFps)
  let complexityFactor :=
    F64.clamp (F64.sqrt (F64.div normalizedSrcMbps (F64.finite 10))) 0.5 2
  let baseTargetMbps :=
    F64.mul
      (F64.mul (F64.mul (F64.finite (typicalBitrateMbps s.video_codec)) crfFactor)
        resolutionFactor)
      complexityFactor
  let targetVideoMbps :=
    F64.mul
      (F64.mul (F64.mul baseTargetMbps (F64.finite (presetFactor s.preset)))
        (F64.finite (hwaccelFactor s.hwaccel s.video_codec)))
      (F64.finite (motionFactor m.content_type))
  let targetVideoBitrate := F64.mul targetVideoMbps (F64.finite 1000000)
  let videoRel := F64.div targetVideoBitrate (F64.finite (source_video_bitrate : ℝ))
  let sourceAudio : Nat := m.source_audio_bitrate.getD 192000
  let targetAudio : F64 :=
    match s.audio_codec with
    | AudioCodec.Copy => F64.finite (sourceAudio : ℝ)
    | AudioCodec.Aac => F64.mul (F64.finite (s.audio_bitrate : ℝ)) (F64.finite 1000)
    | AudioCodec.Mp3 => F64.mul (F64.finite (s.audio_bitrate : ℝ)) (F64.finite 1000)
    | AudioCodec.Flac => F64.mul (F64.finite (sourceAudio : ℝ)) (F64.finite 2.5)
  let totalSourceBitrate : Nat :=
    m.source_overall_bitrate.getD (source_video_bitrate + sourceAudio)
  let audioPortion :=
    F64.div (F64.finite (sourceAudio : ℝ)) (F64.finite (totalSourceBitrate : ℝ))
  let videoPortion := F64.sub (F64.finite 1) audioPortion
  let audioRel := F64.div targetAudio (F64.finite (sourceAudio : ℝ))
  let totalRel := F64.add (F64.mul videoPortion videoRel) (F64.mul audioPortion audioRel)
  F64.clamp totalRel 0.03 5.0

end

/-- The C5 failing metadata: all defaults except a recorded source video
bitrate of zero, which routes the estimator onto the source-bitrate
path. -/
def c5Metadata : VideoMetadata :=
  { defaultMetadata with source_video_bitrate := some 0 }

/-! ## Theorems -/

/-- Both estimator paths end in a clamp to `[0.03, 5.0]`. -/
theorem clamp_mem (x : ℝ) :
    (0.03 : ℝ) ≤ min (max x 0.03) 5.0 ∧ min (max x 0.03) 5.0 ≤ 5.0 :=
  ⟨le_min (le_max_right x 0.03) (by norm_num), min_le_right _ _⟩

/-- The source-bitrate path respects the clamp bounds. -/
theorem estimateFromSourceBitrate_clamped (s : TranscodeSettings) (m : VideoMetadata)
    (svb : Nat) (srcRes tgtRes : Nat × Nat) (srcFps : ℝ) :
    (0.03 : ℝ) ≤ estimateFromSourceBitrate s m svb srcRes tgtRes srcFps
    ∧ estimateFromSourceBitrate s m svb srcRes tgtRes srcFps ≤ 5.0 := by
  unfold estimateFromSourceBitrate
  exact clamp_mem _

/-- The heuristic path respects the clamp bounds. -/
theorem estimateFromCompressionHeuristic_clamped (s : TranscodeSettings)
    (m : VideoMetadata) (srcRes tgtRes : Nat × Nat) (srcFps : ℝ) :
    (0.03 : ℝ) ≤ estimateFromCompressionHeuristic s m srcRes tgtRes srcFps
    ∧ estimateFromCompressionHeuristic s m srcRes tgtRes srcFps ≤ 5.0 := by
  unfold estimateFromCompressionHeuristic
  simp only [ite_self]
  exact clamp_mem _

/-- Over the real-valued reading (with total division), both estimator
paths stay inside the clamp interval for every input.  This does not
extend to the f64 program: on the source-bitrate path NaN escapes
`f64::clamp`, see `source_bitrate_nan_escape`. -/
theorem estimator_ratio_within_clamp (s : TranscodeSettings) (m : VideoMetadata) :
    (0.03 : ℝ) ≤ estimateCompressionRatioAdvanced s m
    ∧ estimateCompressionRatioAdvanced s m ≤ 5.0 := by
  unfold estimateCompressionRatioAdvanced
  rcases hsvb : m.source_video_bitrate with _ | svb
  · simp only [hsvb]
    exact estimateFromCompressionHeuristic_clamped s m _ _ _
  · simp only [hsvb]
    exact estimateFromSourceBitrate_clamped s m svb _ _ _

/-- At the C5 failing input the float-level source-bitrate path computes
`video_ratio = +inf` and `video_portion = 0`, whose product is NaN, and
`f64::clamp` passes the NaN through. -/
theorem c5_eval :
    estimateFromSourceBitrateF defaultSettings c5Metadata 0 (1920, 1080)
      (1920, 1080) (F64.finite 30) = F64.nan := by
  unfold estimateFromSourceBitrateF c5Metadata defaultMetadata defaultSettings
  dsimp only
  norm_num [F64.rpow, F64.div, F64.sub, F64.mul, F64.add, F64.sqrt, F64.clamp,
    F64.isPos, crfDivisor, typicalBitrateMbps, presetFactor, hwaccelFactor,
    motionFactor, Real.rpow_zero, Real.one_rpow, Real.sqrt_zero]

/-- The `max`/`min` chain ending the heuristic path maps every f64 value,
NaN and the infinities included, into the clamp interval. -/
theorem clamp_chain_robust (x : F64) :
    F64.withinClamp (F64.min (F64.max x (F64.finite 0.03)) (F64.finite 5.0)) := by
  cases x <;> simp only [F64.min, F64.max, F64.withinClamp] <;>
    constructor <;> norm_num [le_min_iff, le_max_iff, min_le_iff]

/-- C5: the estimator violates the documented clamp bounds on the
source-bitrate path: with a recorded source video bitrate of zero (all
other metadata defaulted) the f64 computation yields NaN, which
`f64::clamp` propagates, so the returned ratio is not within
`[0.03, 5.0]`.  The `max`/`min` chain of the heuristic path, by contrast,
maps every f64 value into the interval, matching the claim there. -/
theorem source_bitrate_nan_escape :
    estimateCompressionRatioAdvanced defaultSettings c5Metadata
      = estimateFromSourceBitrate defaultSettings c5Metadata 0 (1920, 1080)
          (1920, 1080) 30
    ∧ estimateFromSourceBitrateF defaultSettings c5Metadata 0 (1920, 1080)
        (1920, 1080) (F64.finite 30) = F64.nan
    ∧ ¬ F64.withinClamp (estimateFromSourceBitrateF defaultSettings c5Metadata 0
        (1920, 1080) (1920, 1080) (F64.finite 30))
    ∧ (∀ x : F64,
        F64.withinClamp (F64.min (F64.max x (F64.finite 0.03)) (F64.finite 5.0))) := by
  refine ⟨rfl, c5_eval, ?_, clamp_chain_robust⟩
  rw [c5_eval]
  simp [F64.withinClamp]

/-- C9: `generate_output_path` joins the output directory with the
concatenation of the input stem, the suffix and the chosen container
extension (`mp4` for `Mp4`, `mkv` for `Mkv`). -/
theorem generate_output_path_spec (inputPath outputDir suffix : String)
    (s : TranscodeSettings) (stem : String) (h : fileStem inputPath = some stem) :
    generateOutputPath inputPath outputDir suffix s
      = joinPath outputDir (stem ++ suffix ++ "." ++ s.container.extension)
    ∧ ContainerFormat.extension ContainerFormat.Mp4 = "mp4"
    ∧ ContainerFormat.extension ContainerFormat.Mkv = "mkv" := by
  refine ⟨?_, rfl, rfl⟩
  unfold generateOutputPath
  rw [h]
  rfl

/-- Witness for C9 at a concrete path. -/
theorem generate_output_path_spec_witness :
    fileStem "/videos/clip.mkv" = some "clip"
    ∧ generateOutputPath "/videos/clip.mkv" "/out" "_transcoded" defaultSettings
        = "/out/clip_transcoded.mp4" := by
  have h : fileStem "/videos/clip.mkv" = some "clip" := by decide
  refine ⟨h, ?_⟩
  rw [(generate_output_path_spec "/videos/clip.mkv" "/out" "_transcoded"
        defaultSettings "clip" h).1]
  decide

/-- A successful `firstAvailable` returns an element that passes the test. -/
theorem firstAvailable_true {avail : String → Bool} :
    ∀ {l : List String} {e : String}, firstAvailable avail l = some e → avail e = true := by
  intro l
  induction l with
  | nil => intro e h; simp [firstAvailable] at h
  | cons a rest ih =>
    intro e h
    unfold firstAvailable at h
    split at h
    · cases h; assumption
    · exact ih h

/-- A successful `firstAvailable` returns a member of the list. -/
theorem firstAvailable_mem {avail : String → Bool} :
    ∀ {l : List String} {e : String}, firstAvailable avail l = some e → e ∈ l := by
  intro l
  induction l with
  | nil => intro e h; simp [firstAvailable] at h
  | cons a rest ih =>
    intro e h
    unfold firstAvailable at h
    split at h
    · cases h; exact List.mem_cons_self a rest
    · exact List.mem_cons_of_mem a (ih h)

/-- C8: when the preferred encoder fails the availability test, the
resolver walks the codec-specific software fallback list in order (for
AV1: `libsvtav1`, then `libaom-av1`), returns the first passing fallback
with the `Software` category, and when every fallback fails it still
returns the first fallback candidate with the `Software` category instead
of an error. -/
theorem resolver_fallback (codec : VideoCodec) (hw : HwAccelType)
    (avail : String → Bool) (h : avail (codec.encoderName hw) = false) :
    getFallbackEncoders VideoCodec.Av1 = ["libsvtav1", "libaom-av1"]
    ∧ (getAvailableEncoder codec hw avail).2 = HwAccelType.Software
    ∧ (∀ e, firstAvailable avail (getFallbackEncoders codec) = some e →
        (getAvailableEncoder codec hw avail).1 = e ∧ avail e = true)
    ∧ (firstAvailable avail (getFallbackEncoders codec) = Option.none →
        getAvailableEncoder codec hw avail
          = ((getFallbackEncoders codec).headD "libx264", HwAccelType.Software)) := by
  refine ⟨rfl, ?_, ?_, ?_⟩
  · unfold getAvailableEncoder
    simp only [h, Bool.false_eq_true, if_false]
    rcases hfa : firstAvailable avail (getFallbackEncoders codec) with _ | e <;>
      simp [hfa]
  · intro e he
    constructor
    · unfold getAvailableEncoder
      simp [h, he]
    · exact firstAvailable_true he
  · intro he
    unfold getAvailableEncoder
    simp only [h, Bool.false_eq_true, if_false, he]

/-- Witness for C8: with no encoder available, AV1 under an NVENC
preference resolves to the first software fallback. -/
theorem resolver_fallback_witness :
    getAvailableEncoder VideoCodec.Av1 HwAccelType.Nvenc (fun _ => false)
      = ("libsvtav1", HwAccelType.Software) := by
  have h := resolver_fallback VideoCodec.Av1 HwAccelType.Nvenc (fun _ => false) rfl
  exact (h.2.2.2 rfl).trans rfl

/-- The saturating cast is monotone. -/
theorem ratToU32_mono {p q : ℚ} (h : p ≤ q) : ratToU32 p ≤ ratToU32 q := by
  unfold ratToU32
  exact Int.toNat_le_toNat (min_le_min (Int.floor_le_floor h) le_rfl)

/-- `set_progress` stores monotonically in its argument. -/
theorem setProgressPermyriad_mono {p q : ℚ} (h : p ≤ q) :
    setProgressPermyriad p ≤ setProgressPermyriad q := by
  unfold setProgressPermyriad
  apply ratToU32_mono
  gcongr

/-- The stored permyriad never exceeds 10000. -/
theorem setProgressPermyriad_le (p : ℚ) : setProgressPermyriad p ≤ 10000 := by
  unfold setProgressPermyriad ratToU32
  apply Int.toNat_le.mpr
  refine le_trans (min_le_left _ _) ?_
  have h : min (max (p * 10000) 0) 10000 ≤ ((10000 : ℤ) : ℚ) := by
    exact_mod_cast min_le_right _ _
  exact_mod_cast Int.floor_le_floor h |>.trans (by simp)

/-- C3: the fraction stored by `set_progress` and read back by
`get_progress` always lies in `[0, 1]`; `update_progress_from_time` writes
monotonically in the reported media time (for the fixed per-job total
duration); and the fraction computed by `ProgressFilter::get_progress`
lies in `[0, 1]` and is monotone in the cumulative counters when the
per-job totals are fixed. -/
theorem progress_monotone_bounded :
    (∀ p : ℚ, 0 ≤ getProgressOfPermyriad (setProgressPermyriad p)
        ∧ getProgressOfPermyriad (setProgressPermyriad p) ≤ 1)
    ∧ (∀ (c : ℕ) (t1 t2 : ℚ) (old : ℕ), t1 ≤ t2 →
        updateProgressFromTime c t1 old ≤ updateProgressFromTime c t2 old)
    ∧ (∀ st : FilterState, 0 ≤ progressOf st ∧ progressOf st ≤ 1)
    ∧ (∀ st1 st2 : FilterState,
        st1.totalDurationUs = st2.totalDurationUs →
        st1.totalFrames = st2.totalFrames →
        st1.currentTimeUs ≤ st2.currentTimeUs →
        st1.framesProcessed ≤ st2.framesProcessed →
        progressOf st1 ≤ progressOf st2) := by
  refine ⟨?_, ?_, ?_, ?_⟩
  · intro p
    unfold getProgressOfPermyriad
    constructor
    · positivity
    · rw [div_le_one (by norm_num)]
      exact_mod_cast setProgressPermyriad_le p
  · intro c t1 t2 old h
    unfold updateProgressFromTime
    dsimp only
    split_ifs with hc
    · exact setProgressPermyriad_mono
        (min_le_min ((div_le_div_iff_of_pos_right hc).mpr h) le_rfl)
    · exact le_rfl
  · intro st
    unfold progressOf
    split_ifs with h1 h2
    · exact ⟨le_min (by positivity) (by norm_num), min_le_right _ _⟩
    · exact ⟨le_min (by positivity) (by norm_num), min_le_right _ _⟩
    · norm_num
  · intro st1 st2 htd htf hct hfr
    unfold progressOf
    rw [htd, htf]
    have hct' : (st1.currentTimeUs : ℚ) ≤ st2.currentTimeUs := by exact_mod_cast hct
    have hfr' : (st1.framesProcessed : ℚ) ≤ st2.framesProcessed := by exact_mod_cast hfr
    split_ifs with h1 h2
    · exact min_le_min (by gcongr) le_rfl
    · exact min_le_min (by gcongr) le_rfl
    · exact le_rfl

/-- Witness for C3 at concrete inputs. -/
theorem progress_monotone_bounded_witness :
    updateProgressFromTime 100 (1/2) 0 ≤ updateProgressFromTime 100 (3/4) 0
    ∧ 0 ≤ progressOf ⟨0, 0, 1000, 250, 0⟩ ∧ progressOf ⟨0, 0, 1000, 250, 0⟩ ≤ 1
    ∧ progressOf ⟨0, 0, 1000, 250, 0⟩ ≤ progressOf ⟨0, 0, 1000, 750, 0⟩ := by
  refine ⟨progress_monotone_bounded.2.1 100 (1/2) (3/4) 0 (by norm_num),
          (progress_monotone_bounded.2.2.1 ⟨0, 0, 1000, 250, 0⟩).1,
          (progress_monotone_bounded.2.2.1 ⟨0, 0, 1000, 250, 0⟩).2,
          progress_monotone_bounded.2.2.2 ⟨0, 0, 1000, 250, 0⟩ ⟨0, 0, 1000, 750, 0⟩
            rfl rfl (by norm_num) (by norm_num)⟩

/-- C4 counterexample: at fraction exactly 1 the main-window update path
writes `Some 0` into the shared remaining-time slot (its guard is only
`progress > 0.01`), so the shared state then reports `Some 0`, not
`None`. -/
theorem remaining_some_zero_at_full_progress :
    getRemainingSecs
        (mainWindowRemainingUpdate 1 10 (setRemainingCentisecs Option.none))
      = some 0 := by
  have h1 : mainWindowRemainingUpdate 1 10 (setRemainingCentisecs Option.none) = 0 := by
    unfold mainWindowRemainingUpdate setRemainingCentisecs ratToU32
    rw [if_pos (by norm_num : (1 : ℚ) / 100 < 1)]
    norm_num
  have h2 : getRemainingSecs 0 = some 0 := by
    unfold getRemainingSecs
    norm_num
  rw [h1]
  exact h2

/-- C4 as amended: the snapshot remaining time of
`ProgressFilter::get_progress` is `None` whenever the fraction is 0 or 1
and non-negative whenever present; on the main-window path the value is
written only when the fraction exceeds 0.01, the value read back is
non-negative whenever present, and below the 0.01 threshold a `None`
slot stays `None` — but at fraction 1 that path writes `Some 0` rather
than `None`. -/
theorem remaining_time_amended :
    (∀ (st : FilterState) (elapsed : ℚ),
        progressOf st = 0 ∨ progressOf st = 1 →
        remainingOf st elapsed = Option.none)
    ∧ (∀ (st : FilterState) (elapsed r : ℚ),
        remainingOf st elapsed = some r → 0 ≤ r)
    ∧ (∀ (p e : ℚ) (old : ℕ) (r : ℚ), 1 / 100 < p →
        getRemainingSecs (mainWindowRemainingUpdate p e old) = some r → 0 ≤ r)
    ∧ (∀ (p e : ℚ), ¬ 1 / 100 < p →
        getRemainingSecs
            (mainWindowRemainingUpdate p e (setRemainingCentisecs Option.none))
          = Option.none) := by
  refine ⟨?_, ?_, ?_, ?_⟩
  · intro st elapsed h
    unfold remainingOf
    rcases h with h | h <;> simp [h]
  · intro st elapsed r h
    unfold remainingOf at h
    dsimp only at h
    split_ifs at h
    cases h
    exact le_max_right _ _
  · intro p e old r _ h
    unfold getRemainingSecs at h
    by_cases hc : mainWindowRemainingUpdate p e old = 4294967295
    · rw [if_pos hc] at h
      cases h
    · rw [if_neg hc] at h
      cases h
      positivity
  · intro p e h
    unfold mainWindowRemainingUpdate
    rw [if_neg h]
    unfold getRemainingSecs setRemainingCentisecs
    rw [if_pos rfl]

/-- Witness for C4. -/
theorem remaining_time_amended_witness :
    remainingOf ⟨0, 0, 0, 0, 0⟩ 5 = Option.none
    ∧ getRemainingSecs
        (mainWindowRemainingUpdate (1/200) 7 (setRemainingCentisecs Option.none))
      = Option.none
    ∧ (0 : ℚ) ≤ 10 := by
  have h1 : mainWindowRemainingUpdate (1/2) 10 0 = 1000 := by
    unfold mainWindowRemainingUpdate setRemainingCentisecs ratToU32
    rw [if_pos (by norm_num : (1 : ℚ) / 100 < 1 / 2)]
    norm_num
    decide
  have h2 : getRemainingSecs 1000 = some 10 := by
    unfold getRemainingSecs
    norm_num
  refine ⟨remaining_time_amended.1 ⟨0, 0, 0, 0, 0⟩ 5 (Or.inl ?_),
          remaining_time_amended.2.2.2 (1/200) 7 (by norm_num),
          remaining_time_amended.2.2.1 (1/2) 10 0 10 (by norm_num)
            (by rw [h1]; exact h2)⟩
  unfold progressOf
  norm_num

/-- C10: the estimated final size is `None` whenever the recorded output
size is zero, even above the 5 percent threshold; it is
`Some (current_size / fraction)` (with the saturating `u64` cast) exactly
when the fraction exceeds 0.05 and the output size is positive. -/
theorem estimated_size_spec (st : FilterState) :
    (st.currentSize = 0 → estimatedSizeOf st = Option.none)
    ∧ (1 / 20 < progressOf st ∧ 0 < st.currentSize →
        estimatedSizeOf st
          = some (ratToU64 ((st.currentSize : ℚ) / progressOf st)))
    ∧ (¬ (1 / 20 < progressOf st ∧ 0 < st.currentSize) →
        estimatedSizeOf st = Option.none) := by
  refine ⟨?_, ?_, ?_⟩
  · intro h
    unfold estimatedSizeOf
    rw [if_neg]
    simp [h]
  · intro h
    unfold estimatedSizeOf
    rw [if_pos h]
  · intro h
    unfold estimatedSizeOf
    rw [if_neg h]

/-- Witness for C10: at 10 percent progress with 50 bytes written the
snapshot predicts 500 bytes; with zero bytes written it predicts
nothing even at 50 percent progress. -/
theorem estimated_size_spec_witness :
    estimatedSizeOf ⟨0, 0, 1000000, 100000, 50⟩ = some 500
    ∧ estimatedSizeOf ⟨0, 0, 1000000, 500000, 0⟩ = Option.none := by
  constructor
  · rw [(estimated_size_spec ⟨0, 0, 1000000, 100000, 50⟩).2.1 ?_]
    · unfold progressOf ratToU64
      norm_num
      decide
    · unfold progressOf
      norm_num
  · exact (estimated_size_spec ⟨0, 0, 1000000, 500000, 0⟩).1 rfl

/-- C7 counterexample: the text `nvenc encoder not found` matches both the
encoder-not-found pattern and the generic hardware-acceleration pattern,
yet the classifier returns `EncoderNotSupported`, not
`HwAccelNotAvailable`: in `FfmpegError::parse` the encoder-not-found check
comes first, before every hardware pattern. -/
theorem classifier_order_cx :
    encPat (lowerStr "nvenc encoder not found") = true
    ∧ (hwKwPat (lowerStr "nvenc encoder not found")
        && hwVerbPat (lowerStr "nvenc encoder not found")) = true
    ∧ ffmpegParseKind "nvenc encoder not found"
        = FfmpegErrorKind.EncoderNotSupported "不明"
    ∧ (match ffmpegParseKind "nvenc encoder not found" with
        | FfmpegErrorKind.HwAccelNotAvailable _ => false
        | _ => true) = true := by
  refine ⟨by decide, by decide, by decide, by decide⟩

/-- C7 as amended: the classifier applies its case-insensitive rules in
this order: encoder-not-found patterns first; then the vendor-specific
QSV, NVENC and AMF hardware failure signatures; then the generic
hardware-acceleration keyword patterns; then decoder-not-found; then the
filesystem, permission and disk-space patterns; then the unknown bucket.
In particular a text matching both a generic hardware-acceleration
pattern and an encoder-not-found pattern is classified as
`EncoderNotSupported`. -/
theorem classifier_order_amended :
    (∀ s, encPat (lowerStr s) = true →
        ffmpegParseKind s = FfmpegErrorKind.EncoderNotSupported (extractEncoderName s))
    ∧ (∀ s, encPat (lowerStr s) = false → qsvPat (lowerStr s) = true →
        ffmpegParseKind s = FfmpegErrorKind.HwAccelNotAvailable "Intel QSV")
    ∧ (∀ s, encPat (lowerStr s) = false → qsvPat (lowerStr s) = false →
        nvencPat (lowerStr s) = true →
        ffmpegParseKind s = FfmpegErrorKind.HwAccelNotAvailable "NVIDIA NVENC")
    ∧ (∀ s, encPat (lowerStr s) = false → qsvPat (lowerStr s) = false →
        nvencPat (lowerStr s) = false → amfPat (lowerStr s) = true →
        ffmpegParseKind s = FfmpegErrorKind.HwAccelNotAvailable "AMD AMF")
    ∧ (∀ s, encPat (lowerStr s) = false → qsvPat (lowerStr s) = false →
        nvencPat (lowerStr s) = false → amfPat (lowerStr s) = false →
        (hwKwPat (lowerStr s) && hwVerbPat (lowerStr s)) = true →
        ffmpegParseKind s = FfmpegErrorKind.HwAccelNotAvailable (extractHwaccelName s))
    ∧ (∀ s, encPat (lowerStr s) = false → qsvPat (lowerStr s) = false →
        nvencPat (lowerStr s) = false → amfPat (lowerStr s) = false →
        (hwKwPat (lowerStr s) && hwVerbPat (lowerStr s)) = false →
        decPat (lowerStr s) = true →
        ffmpegParseKind s = FfmpegErrorKind.DecoderNotSupported (extractDecoderName s))
    ∧ (∀ s, encPat (lowerStr s) = false → qsvPat (lowerStr s) = false →
        nvencPat (lowerStr s) = false → amfPat (lowerStr s) = false →
        (hwKwPat (lowerStr s) && hwVerbPat (lowerStr s)) = false →
        decPat (lowerStr s) = false → inputNotFoundPat (lowerStr s) = true →
        ffmpegParseKind s = FfmpegErrorKind.InputNotFound)
    ∧ (∀ s, encPat (lowerStr s) = false → qsvPat (lowerStr s) = false →
        nvencPat (lowerStr s) = false → amfPat (lowerStr s) = false →
        (hwKwPat (lowerStr s) && hwVerbPat (lowerStr s)) = false →
        decPat (lowerStr s) = false → inputNotFoundPat (lowerStr s) = false →
        corruptPat (lowerStr s) = true →
        ffmpegParseKind s = FfmpegErrorKind.InputCorrupted)
    ∧ (∀ s, encPat (lowerStr s) = false → qsvPat (lowerStr s) = false →
        nvencPat (lowerStr s) = false → amfPat (lowerStr s) = false →
        (hwKwPat (lowerStr s) && hwVerbPat (lowerStr s)) = false →
        decPat (lowerStr s) = false → inputNotFoundPat (lowerStr s) = false →
        corruptPat (lowerStr s) = false → permPat (lowerStr s) = true →
        ffmpegParseKind s = FfmpegErrorKind.PermissionDenied)
    ∧ (∀ s, encPat (lowerStr s) = false → qsvPat (lowerStr s) = false →
        nvencPat (lowerStr s) = false → amfPat (lowerStr s) = false →
        (hwKwPat (lowerStr s) && hwVerbPat (lowerStr s)) = false →
        decPat (lowerStr s) = false → inputNotFoundPat (lowerStr s) = false →
        corruptPat (lowerStr s) = false → permPat (lowerStr s) = false →
        diskPat (lowerStr s) = true →
        ffmpegParseKind s = FfmpegErrorKind.DiskFull)
    ∧ (∀ s, encPat (lowerStr s) = false → qsvPat (lowerStr s) = false →
        nvencPat (lowerStr s) = false → amfPat (lowerStr s) = false →
        (hwKwPat (lowerStr s) && hwVerbPat (lowerStr s)) = false →
        decPat (lowerStr s) = false → inputNotFoundPat (lowerStr s) = false →
        corruptPat (lowerStr s) = false → permPat (lowerStr s) = false →
        diskPat (lowerStr s) = false → outputPat (lowerStr s) = true →
        ffmpegParseKind s = FfmpegErrorKind.OutputWriteError)
    ∧ (∀ s, encPat (lowerStr s) = false → qsvPat (lowerStr s) = false →
        nvencPat (lowerStr s) = false → amfPat (lowerStr s) = false →
        (hwKwPat (lowerStr s) && hwVerbPat (lowerStr s)) = false →
        decPat (lowerStr s) = false → inputNotFoundPat (lowerStr s) = false →
        corruptPat (lowerStr s) = false → permPat (lowerStr s) = false →
        diskPat (lowerStr s) = false → outputPat (lowerStr s) = false →
        memPat (lowerStr s) = true →
        ffmpegParseKind s = FfmpegErrorKind.OutOfMemory)
    ∧ (∀ s, encPat (lowerStr s) = false → qsvPat (lowerStr s) = false →
        nvencPat (lowerStr s) = false → amfPat (lowerStr s) = false →
        (hwKwPat (lowerStr s) && hwVerbPat (lowerStr s)) = false →
        decPat (lowerStr s) = false → inputNotFoundPat (lowerStr s) = false →
        corruptPat (lowerStr s) = false → permPat (lowerStr s) = false →
        diskPat (lowerStr s) = false → outputPat (lowerStr s) = false →
        memPat (lowerStr s) = false → optPat (lowerStr s) = true →
        ffmpegParseKind s = FfmpegErrorKind.InvalidCodecOption (extractOptionName s))
    ∧ (∀ s, encPat (lowerStr s) = false → qsvPat (lowerStr s) = false →
        nvencPat (lowerStr s) = false → amfPat (lowerStr s) = false →
        (hwKwPat (lowerStr s) && hwVerbPat (lowerStr s)) = false →
        decPat (lowerStr s) = false → inputNotFoundPat (lowerStr s) = false →
        corruptPat (lowerStr s) = false → permPat (lowerStr s) = false →
        diskPat (lowerStr s) = false → outputPat (lowerStr s) = false →
        memPat (lowerStr s) = false → optPat (lowerStr s) = false →
        ffmpegParseKind s = FfmpegErrorKind.Unknown (lastErrorLine s)) := by
  refine ⟨?_, ?_, ?_, ?_, ?_, ?_, ?_, ?_, ?_, ?_, ?_, ?_, ?_, ?_⟩ <;>
    intro s <;> intros <;> unfold ffmpegParseKind <;> simp_all

/-- Witness for C7, matching the spec example: an unknown-encoder message
naming a hardware encoder still classifies as encoder-not-supported with
the quoted encoder name extracted. -/
theorem classifier_order_amended_witness :
    encPat (lowerStr "Unknown encoder 'h264_nvenc'") = true
    ∧ ffmpegParseKind "Unknown encoder 'h264_nvenc'"
        = FfmpegErrorKind.EncoderNotSupported "h264_nvenc" := by
  refine ⟨by decide, ?_⟩
  rw [classifier_order_amended.1 "Unknown encoder 'h264_nvenc'" (by decide)]
  decide

/-- The C6 scenario settings: defaults (CRF 23, medium preset, AAC 192,
resolution Original) with explicit software encoding, parameterized by
the codec. -/
def c6Settings (codec : VideoCodec) : TranscodeSettings :=
  { defaultSettings with hwaccel := HwAccelType.Software, video_codec := codec }

/-- The C6 scenario metadata: 1080p source, 30 fps, normal motion, no
source bitrate. -/
def c6Metadata : VideoMetadata :=
  { defaultMetadata with resolution := some (1920, 1080), fps := some 30 }

/-- In the C6 scenario every factor of the heuristic model except the
codec-efficiency constant equals one, so the estimate reduces to the
clamped `0.9 * codecEfficiency + 0.07`. -/
theorem c6_eval (codec : VideoCodec) :
    estimateCompressionRatioAdvanced (c6Settings codec) c6Metadata
      = min (max (0.9 * codecEfficiency codec + 0.07) 0.03) 5.0 := by
  have hsoft : hwaccelFactor HwAccelType.Software codec = 1.00 := by
    cases codec <;> rfl
  have hmin : (min 1920 1080 : ℕ) = 1080 := by norm_num
  unfold estimateCompressionRatioAdvanced estimateFromCompressionHeuristic
    c6Settings c6Metadata defaultMetadata defaultSettings
  dsimp only
  simp only [Option.getD_some, Option.getD_none]
  rw [hsoft, hmin]
  norm_num [Real.rpow_zero, Real.one_rpow, motionFactor, presetFactor]

/-- C6 counterexample: with the H.264 codec the scenario of the claim
produces the ratio 1.87, outside the claimed interval `[0.85, 1.15]` —
in the heuristic model the baseline codec is H.265, and H.264 carries a
2.0 codec-efficiency factor. -/
theorem baseline_ratio_cx :
    estimateCompressionRatioAdvanced (c6Settings VideoCodec.H264) c6Metadata = 1.87
    ∧ ¬ ((0.85 : ℝ) ≤ estimateCompressionRatioAdvanced (c6Settings VideoCodec.H264) c6Metadata
          ∧ estimateCompressionRatioAdvanced (c6Settings VideoCodec.H264) c6Metadata ≤ 1.15) := by
  have h := c6_eval VideoCodec.H264
  rw [show codecEfficiency VideoCodec.H264 = 2.00 from rfl] at h
  norm_num at h
  norm_num [h]

/-- C6 as amended: in the baseline regime of the code the codec is H.265
(efficiency factor 1.0); for CRF 23, H.265, software, medium preset,
1080p source at 30 fps, normal motion and no source bitrate the ratio is
0.97, within 15 percent of 1.0.  For the same scenario with H.264 the
ratio is 1.87, reflecting the 2.0 efficiency factor of H.264 relative to
the H.265 baseline. -/
theorem baseline_ratio_amended :
    estimateCompressionRatioAdvanced (c6Settings VideoCodec.H265) c6Metadata = 0.97
    ∧ (0.85 : ℝ) ≤ estimateCompressionRatioAdvanced (c6Settings VideoCodec.H265) c6Metadata
    ∧ estimateCompressionRatioAdvanced (c6Settings VideoCodec.H265) c6Metadata ≤ 1.15
    ∧ estimateCompressionRatioAdvanced (c6Settings VideoCodec.H264) c6Metadata = 1.87 := by
  have h5 := c6_eval VideoCodec.H265
  have h4 := c6_eval VideoCodec.H264
  rw [show codecEfficiency VideoCodec.H265 = 1.00 from rfl] at h5
  rw [show codecEfficiency VideoCodec.H264 = 2.00 from rfl] at h4
  norm_num at h5 h4
  norm_num [h5, h4]

/-! ### Occurrence analysis for the scale filter flag -/

/-- No element of `l` is the scale filter flag. -/
def vfFree (l : List String) : Prop :=
  "-vf" ∉ l

theorem vfFree_nil : vfFree [] :=
  List.not_mem_nil _

theorem vfFree_append {a b : List String} (ha : vfFree a) (hb : vfFree b) :
    vfFree (a ++ b) := by
  intro h
  rcases List.mem_append.mp h with h | h
  · exact ha h
  · exact hb h

theorem vfFree_cons {x : String} {l : List String} (hx : x ≠ "-vf")
    (hl : vfFree l) : vfFree (x :: l) := by
  intro h
  rcases List.mem_cons.mp h with h | h
  · exact hx h.symm
  · exact hl h

theorem vfFree_ite {c : Prop} [Decidable c] {a b : List String}
    (ha : vfFree a) (hb : vfFree b) : vfFree (if c then a else b) := by
  split <;> assumption

theorem count_eq_zero_of_vfFree {l : List String} (h : vfFree l) :
    List.count "-vf" l = 0 :=
  List.count_eq_zero.mpr h

/-- Decimal strings differ from `-vf`. -/
theorem repr_ne_vf (n : Nat) : Nat.repr n ≠ "-vf" :=
  ne_of_no_dash (repr_no_dash n) (by decide)

theorem no_dash_kStr (n : Nat) : '-' ∉ (kStr n).data := by
  unfold kStr
  rw [data_append]
  intro h
  rcases List.mem_append.mp h with h | h
  · exact repr_no_dash n h
  · exact absurd h (by decide)

theorem kStr_ne_vf (n : Nat) : kStr n ≠ "-vf" :=
  ne_of_no_dash (no_dash_kStr n) (by decide)

theorem no_dash_aqStrengthStr (n : Nat) : '-' ∉ (aqStrengthStr n).data := by
  unfold aqStrengthStr
  rw [data_append, data_append]
  intro h
  rcases List.mem_append.mp h with h | h
  · rcases List.mem_append.mp h with h | h
    · exact repr_no_dash _ h
    · exact absurd h (by decide)
  · exact repr_no_dash _ h

theorem aqStr_ne_vf (n : Nat) : aqStrengthStr n ≠ "-vf" :=
  ne_of_no_dash (no_dash_aqStrengthStr n) (by decide)

theorem no_dash_scaleStr (w h : Nat) : '-' ∉ (scaleStr w h).data := by
  unfold scaleStr
  rw [data_append, data_append, data_append]
  intro hm
  rcases List.mem_append.mp hm with hm | hm
  · rcases List.mem_append.mp hm with hm | hm
    · rcases List.mem_append.mp hm with hm | hm
      · exact absurd hm (by decide)
      · exact repr_no_dash _ hm
    · exact absurd hm (by decide)
  · exact repr_no_dash _ hm

theorem scaleStr_ne_vf (w h : Nat) : scaleStr w h ≠ "-vf" :=
  ne_of_no_dash (no_dash_scaleStr w h) (by decide)

/-- The libaom tiles value, such as `2x2`, differs from `-vf`. -/
theorem tiles_ne_vf (a b : Nat) : Nat.repr a ++ "x" ++ Nat.repr b ≠ "-vf" := by
  apply ne_of_no_dash ?_ (by decide)
  rw [data_append, data_append]
  intro h
  rcases List.mem_append.mp h with h | h
  · rcases List.mem_append.mp h with h | h
    · exact repr_no_dash _ h
    · exact absurd h (by decide)
  · exact repr_no_dash _ h

/-- The SVT-AV1 parameter string starts with `f`, hence differs from
`-vf`. -/
theorem svtParam_ne_vf (g : Nat) (y : String) :
    "film-grain=" ++ Nat.repr g ++ y ≠ "-vf" := by
  have hd : ("film-grain=" ++ Nat.repr g ++ y).data
      = 'f' :: (("ilm-grain=".data ++ (Nat.repr g).data) ++ y.data) := by
    rw [data_append, data_append]
    rfl
  exact ne_of_head_ne_dash hd (by decide) (by decide)

/-- Enumeration-valued argument strings differ from `-vf`. -/
theorem nvencTune_ne_vf (t : NvencTune) : t.ffmpegValue ≠ "-vf" := by
  cases t <;> decide

theorem nvencMultipass_ne_vf (t : NvencMultipass) : t.ffmpegValue ≠ "-vf" := by
  cases t <;> decide

theorem nvencBRef_ne_vf (t : NvencBRefMode) : t.ffmpegValue ≠ "-vf" := by
  cases t <;> decide

theorem amfUsage_ne_vf (t : AmfUsage) : t.ffmpegValue ≠ "-vf" := by
  cases t <;> decide

theorem amfQuality_ne_vf (t : AmfQuality) : t.ffmpegValue ≠ "-vf" := by
  cases t <;> decide

theorem x264Profile_ne_vf (t : X264Profile) : t.ffmpegValue ≠ "-vf" := by
  cases t <;> decide

theorem presetName_ne_vf (t : VideoPreset) : t.ffmpegName ≠ "-vf" := by
  cases t <;> decide

theorem nvencPreset_ne_vf (t : VideoPreset) : nvencPreset t ≠ "-vf" := by
  cases t <;> decide

theorem qsvPreset_ne_vf (t : VideoPreset) : qsvPreset t ≠ "-vf" := by
  cases t <;> decide

theorem vp9CpuUsed_ne_vf (t : VideoPreset) : vp9CpuUsed t ≠ "-vf" := by
  cases t <;> decide

theorem aomCpuUsed_ne_vf (t : VideoPreset) : aomCpuUsed t ≠ "-vf" := by
  cases t <;> decide

theorem svtPreset_ne_vf (t : VideoPreset) : svtPreset t ≠ "-vf" := by
  cases t <;> decide

theorem aqModeVal_ne_vf (t : AqMode) : Nat.repr t.ffmpegValue ≠ "-vf" :=
  repr_ne_vf _

/-- `joinChar` on a non-empty list starts with the first chunk. -/
theorem joinChar_cons_data (sep : Char) (x : List Char) (rest : List (List Char)) :
    ∃ t, joinChar sep (x :: rest) = x ++ t := by
  cases rest with
  | nil => exact ⟨[], by simp [joinChar]⟩
  | cons y r => exact ⟨sep :: joinChar sep (y :: r), rfl⟩

/-- A colon join of strings whose first characters are not dashes differs
from `-vf`. -/
theorem joinColon_ne_vf {l : List String}
    (hl : ∀ p ∈ l, ∃ c tl, p.data = c :: tl ∧ c ≠ '-') (hne : l ≠ []) :
    joinColon l ≠ "-vf" := by
  rcases l with _ | ⟨a, rest⟩
  · exact absurd rfl hne
  · obtain ⟨c, tl, hdata, hc⟩ := hl a (List.mem_cons_self a rest)
    obtain ⟨t, ht⟩ := joinChar_cons_data ':' a.data (rest.map String.data)
    have hd : (joinColon (a :: rest)).data = c :: (tl ++ t) := by
      show joinChar ':' (a.data :: rest.map String.data) = c :: (tl ++ t)
      rw [ht, hdata]
      rfl
    exact ne_of_head_ne_dash hd hc (by decide)

/-- Every entry of the x265 parameter vector starts with a letter. -/
theorem x265Params_heads (s : TranscodeSettings) :
    ∀ p ∈ x265Params s, ∃ c tl, p.data = c :: tl ∧ c ≠ '-' := by
  intro p hp
  unfold x265Params at hp
  rcases List.mem_append.mp hp with hp | hp
  · rcases List.mem_append.mp hp with hp | hp
    · rcases List.mem_append.mp hp with hp | hp
      · split_ifs at hp <;> simp at hp
        subst hp
        exact ⟨'b', "frames=".data ++ (Nat.repr s.bframes).data,
          by rw [data_append]; rfl, by decide⟩
      · split_ifs at hp <;> simp at hp
        subst hp
        exact ⟨'r', "ef=".data ++ (Nat.repr s.ref_frames).data,
          by rw [data_append]; rfl, by decide⟩
    · split_ifs at hp <;> simp at hp
      rcases hp with hp | hp <;> subst hp
      · exact ⟨'a', "q-mode=".data ++ (Nat.repr s.aq_mode.ffmpegValue).data,
          by rw [data_append]; rfl, by decide⟩
      · exact ⟨'a', "q-strength=".data ++ (aqStrengthStr s.aq_strength).data,
          by rw [data_append]; rfl, by decide⟩
  · split_ifs at hp <;> simp at hp
    subst hp
    exact ⟨'r', "c-lookahead=".data ++ (Nat.repr s.lookahead).data,
      by rw [data_append]; rfl, by decide⟩

theorem vfFree_rc (s : TranscodeSettings) (hw : HwAccelType) :
    vfFree (addRateControlArgs s hw) := by
  unfold addRateControlArgs
  cases s.rate_control <;> [cases hw; skip; skip; skip] <;>
    repeat' first
      | apply vfFree_cons
      | exact vfFree_nil
      | exact repr_ne_vf _
      | exact kStr_ne_vf _
      | decide

theorem vfFree_nvenc (s : TranscodeSettings) : vfFree (addNvencArgs s) := by
  unfold addNvencArgs
  cases s.rate_control <;>
    repeat' first
      | apply vfFree_append
      | apply vfFree_ite
      | apply vfFree_cons
      | exact vfFree_nil
      | exact repr_ne_vf _
      | exact kStr_ne_vf _
      | exact nvencTune_ne_vf _
      | exact nvencMultipass_ne_vf _
      | exact nvencBRef_ne_vf _
      | exact nvencPreset_ne_vf _
      | decide

theorem vfFree_qsv (s : TranscodeSettings) : vfFree (addQsvArgs s) := by
  unfold addQsvArgs
  cases s.rate_control <;>
    repeat' first
      | apply vfFree_append
      | apply vfFree_ite
      | apply vfFree_cons
      | exact vfFree_nil
      | exact repr_ne_vf _
      | exact kStr_ne_vf _
      | exact qsvPreset_ne_vf _
      | decide

theorem vfFree_amf (s : TranscodeSettings) : vfFree (addAmfArgs s) := by
  unfold addAmfArgs
  cases s.rate_control <;>
    repeat' first
      | apply vfFree_append
      | apply vfFree_ite
      | apply vfFree_cons
      | exact vfFree_nil
      | exact repr_ne_vf _
      | exact kStr_ne_vf _
      | exact amfUsage_ne_vf _
      | exact amfQuality_ne_vf _
      | decide

theorem vfFree_x264 (s : TranscodeSettings) : vfFree (addX264Args s) := by
  unfold addX264Args
  cases s.x264_tune <;>
    repeat' first
      | apply vfFree_append
      | apply vfFree_ite
      | apply vfFree_cons
      | exact vfFree_nil
      | exact vfFree_rc _ _
      | exact repr_ne_vf _
      | exact aqStr_ne_vf _
      | exact x264Profile_ne_vf _
      | exact presetName_ne_vf _
      | decide

theorem vfFree_x265 (s : TranscodeSettings) : vfFree (addX265Args s) := by
  unfold addX265Args
  refine vfFree_append (vfFree_append (vfFree_append (vfFree_rc s _) ?_) ?_) ?_
  · exact vfFree_cons (by decide) (vfFree_cons (presetName_ne_vf _) vfFree_nil)
  · cases s.x264_tune <;>
      repeat' first
        | apply vfFree_ite
        | apply vfFree_cons
        | exact vfFree_nil
        | decide
  · split_ifs with hp
    · exact vfFree_cons (by decide)
        (vfFree_cons (joinColon_ne_vf (x265Params_heads s) hp) vfFree_nil)
    · exact vfFree_nil

theorem vfFree_vp9 (s : TranscodeSettings) : vfFree (addVp9Args s) := by
  unfold addVp9Args
  cases s.rate_control <;>
    repeat' first
      | apply vfFree_append
      | apply vfFree_ite
      | apply vfFree_cons
      | exact vfFree_nil
      | exact repr_ne_vf _
      | exact kStr_ne_vf _
      | exact vp9CpuUsed_ne_vf _
      | decide

theorem vfFree_aom (s : TranscodeSettings) : vfFree (addLibaomAv1Args s) := by
  unfold addLibaomAv1Args
  cases s.rate_control <;>
    repeat' first
      | apply vfFree_append
      | apply vfFree_ite
      | apply vfFree_cons
      | exact vfFree_nil
      | exact repr_ne_vf _
      | exact kStr_ne_vf _
      | exact aomCpuUsed_ne_vf _
      | exact tiles_ne_vf _ _
      | decide

theorem vfFree_svt (s : TranscodeSettings) : vfFree (addSvtav1Args s) := by
  unfold addSvtav1Args
  cases s.rate_control <;>
    repeat' first
      | apply vfFree_append
      | apply vfFree_ite
      | apply vfFree_cons
      | exact vfFree_nil
      | exact repr_ne_vf _
      | exact kStr_ne_vf _
      | exact svtPreset_ne_vf _
      | exact svtParam_ne_vf _ _
      | decide

theorem vfFree_family (s : TranscodeSettings) (enc : String) (hw : HwAccelType) :
    vfFree (familyArgs s enc hw) := by
  unfold familyArgs
  split_ifs <;> first
    | exact vfFree_nvenc s
    | exact vfFree_qsv s
    | exact vfFree_amf s
    | exact vfFree_x264 s
    | exact vfFree_x265 s
    | exact vfFree_vp9 s
    | exact vfFree_aom s
    | exact vfFree_svt s
    | exact vfFree_append (vfFree_rc s hw)
        (vfFree_cons (by decide) (vfFree_cons (presetName_ne_vf _) vfFree_nil))

theorem vfFree_audio (s : TranscodeSettings) : vfFree (addAudioArgs s) := by
  unfold addAudioArgs
  cases s.audio_codec <;>
    repeat' first
      | apply vfFree_cons
      | exact vfFree_nil
      | exact kStr_ne_vf _
      | decide

theorem vfFree_hw (hw : HwAccelType) : vfFree (addHwaccelArgs hw) := by
  unfold vfFree addHwaccelArgs
  cases hw <;> decide

/-- The resolved encoder is either the preferred encoder-name table entry
or a fallback entry. -/
theorem resolved_encoder_mem (c : VideoCodec) (hw : HwAccelType)
    (avail : String → Bool) :
    (getAvailableEncoder c hw avail).1 = c.encoderName hw
    ∨ (getAvailableEncoder c hw avail).1 ∈ getFallbackEncoders c := by
  unfold getAvailableEncoder
  dsimp only
  split
  · exact Or.inl rfl
  · split
    case _ e heq => exact Or.inr (firstAvailable_mem heq)
    case _ => right; cases c <;> decide

/-- The resolved encoder string is never the scale filter flag. -/
theorem resolved_ne_vf (c : VideoCodec) (hw : HwAccelType)
    (avail : String → Bool) : (getAvailableEncoder c hw avail).1 ≠ "-vf" := by
  rcases resolved_encoder_mem c hw avail with h | h
  · rw [h]; cases c <;> cases hw <;> decide
  · cases c <;> simp only [getFallbackEncoders, List.mem_cons,
      List.not_mem_nil, or_false] at h <;>
      first
        | (rw [h]; decide)
        | (rcases h with h | h <;> (rw [h]; decide))

/-- The count of `-vf` in `scale_args` is one exactly off the Original
resolution mode. -/
theorem count_vf_scaleArgs (s : TranscodeSettings) :
    List.count "-vf" (scaleArgs s)
      = if s.resolution = VideoResolution.Original then 0 else 1 := by
  unfold scaleArgs
  rcases hr : s.resolution with _ | _ | _ | _ | _ | ⟨w, h⟩ <;>
    simp [hr, List.count_cons, scaleStr_ne_vf]

/-- Off the Original mode, `scale_args` is the two-element filter block
with the dimensions of the selected mode. -/
theorem scaleArgs_eq (s : TranscodeSettings)
    (h : s.resolution ≠ VideoResolution.Original) :
    scaleArgs s
      = ["-vf", scaleStr s.resolution.dimensions.1 s.resolution.dimensions.2] := by
  unfold scaleArgs
  rcases hr : s.resolution with _ | _ | _ | _ | _ | ⟨w, hh⟩ <;>
    simp_all [VideoResolution.dimensions]

/-- C2: for every settings value and every availability snapshot, the
Original resolution mode emits no scale filter at all, and every other
resolution mode emits exactly one scale filter whose dimensions are that
mode's width and height. -/
theorem scale_filter_spec (s : TranscodeSettings) (avail : String → Bool)
    (inputPath outputPath : String)
    (h1 : inputPath ≠ "-vf") (h2 : outputPath ≠ "-vf") :
    List.count "-vf" (buildFfmpegArgs s avail inputPath outputPath)
      = (if s.resolution = VideoResolution.Original then 0 else 1)
    ∧ (s.resolution ≠ VideoResolution.Original →
        ∃ l1 l2, buildFfmpegArgs s avail inputPath outputPath
          = l1 ++ ["-vf", scaleStr s.resolution.dimensions.1
                            s.resolution.dimensions.2] ++ l2) := by
  constructor
  · unfold buildFfmpegArgs addVideoArgsWithEncoder
    dsimp only
    simp only [List.count_append]
    rw [count_eq_zero_of_vfFree (vfFree_hw _),
        count_eq_zero_of_vfFree (vfFree_cons (by decide)
          (vfFree_cons h1 vfFree_nil)),
        count_eq_zero_of_vfFree (vfFree_cons (by decide)
          (vfFree_cons (resolved_ne_vf s.video_codec s.hwaccel avail) vfFree_nil)),
        count_vf_scaleArgs,
        count_eq_zero_of_vfFree (vfFree_family s _ _),
        count_eq_zero_of_vfFree (vfFree_ite
          (vfFree_cons (by decide) (vfFree_cons (repr_ne_vf _) vfFree_nil))
          vfFree_nil),
        count_eq_zero_of_vfFree (vfFree_audio s),
        count_eq_zero_of_vfFree (vfFree_cons (by decide) (vfFree_cons (by decide)
          (vfFree_cons (by decide) (vfFree_cons (by decide)
            (vfFree_cons (by decide) (vfFree_cons h2 vfFree_nil))))))]
    omega
  · intro hres
    unfold buildFfmpegArgs addVideoArgsWithEncoder
    dsimp only
    rw [scaleArgs_eq s hres]
    refine ⟨addHwaccelArgs (getAvailableEncoder s.video_codec s.hwaccel avail).2
        ++ ["-i", inputPath]
        ++ ["-c:v", (getAvailableEncoder s.video_codec s.hwaccel avail).1], ?_, ?_⟩
    · exact familyArgs s (getAvailableEncoder s.video_codec s.hwaccel avail).1
          (getAvailableEncoder s.video_codec s.hwaccel avail).2
        ++ (if s.gop_size > 0 then ["-g", Nat.repr s.gop_size] else [])
        ++ addAudioArgs s
        ++ ["-progress", "pipe:1", "-stats_period", "0.5", "-y", outputPath]
    · simp [List.append_assoc]

/-- Witness for C2 at a concrete non-Original resolution. -/
theorem scale_filter_spec_witness :
    List.count "-vf"
        (buildFfmpegArgs { defaultSettings with resolution := VideoResolution.Hd720 }
          (fun _ => true) "in.mp4" "out.mp4") = 1
    ∧ ∃ l1 l2,
        buildFfmpegArgs { defaultSettings with resolution := VideoResolution.Hd720 }
            (fun _ => true) "in.mp4" "out.mp4"
          = l1 ++ ["-vf", scaleStr 1280 720] ++ l2 := by
  have h := scale_filter_spec
    { defaultSettings with resolution := VideoResolution.Hd720 }
    (fun _ => true) "in.mp4" "out.mp4" (by decide) (by decide)
  exact ⟨(h.1).trans (by decide), h.2 (by decide)⟩

/-- The C1 failing input: default settings with AMF acceleration and
CRF 255 (a legal `u8` value).  `add_amf_args` then computes
`self.settings.crf + 2` on a `u8`, which overflows. -/
def c1FailSettings : TranscodeSettings :=
  { defaultSettings with hwaccel := HwAccelType.Amf, crf := 255 }

/-- C1 failing-input evaluation: with every encoder available, the
preferred encoder resolves to `h264_amf` and the command compiler under
debug-mode overflow semantics fails (`none`) on CRF 255, because the
AMF CRF branch computes `crf + 2` on a `u8`; the same settings with the
default CRF 23 compile fine.  (In release builds the addition wraps to
`qp_b = 1` instead of panicking.) -/
theorem amf_crf_overflow :
    (getAvailableEncoder c1FailSettings.video_codec c1FailSettings.hwaccel
        (fun _ => true)).1 = "h264_amf"
    ∧ buildFfmpegArgsChecked c1FailSettings (fun _ => true) "in.mp4" "out.mp4"
        = Option.none
    ∧ (buildFfmpegArgsChecked { defaultSettings with hwaccel := HwAccelType.Amf }
        (fun _ => true) "in.mp4" "out.mp4").isSome = true
    ∧ buildFfmpegArgs c1FailSettings (fun _ => true) "in.mp4" "out.mp4" ≠ [] := by
  refine ⟨by decide, by decide, by decide, by decide⟩

end Kamaitachi
